import Mathlib

/-!
Verification of the metro security-corridor discrete-time simulator.

The Python sources are embedded shallowly:
* floating-point numbers become `ℚ`, Python `int` becomes `ℤ`/`ℕ`;
* `int(x)` (truncation toward zero) becomes `pyInt`;
* list slicing `l[:k]` / `l[k:]` becomes `List.take` / `List.drop` at `pySliceIdx`;
* Python's stable `list.sort(key=...)` becomes the stable `List.insertionSort`;
* object mutation through the candidate references becomes positional update
  (`modifyAt`) at the passenger's slot in `System.passengers`;
* a raised `RuntimeError` becomes `Except.error`.

Namespace `Metro` embeds `metro_security_simulator`, namespace `FullPhysics`
embeds the admission controllers of `metro_simulator_full_physics`.
-/

/-- Python `int(x)`: truncation toward zero. -/
def pyInt (q : ℚ) : ℤ := if 0 ≤ q then ⌊q⌋ else ⌈q⌉

/-- The start index a Python slice `l[:k]` / `l[k:]` resolves to for an
integer `k` (negative indices count from the end, then clip). -/
def pySliceIdx (n : ℕ) (k : ℤ) : ℕ := (if 0 ≤ k then k else (n : ℤ) + k).toNat

/-- Replace the element at position `i` by the image under `f` (no-op when
out of range); this renders Python's in-place mutation of the object a
candidate entry references. -/
def modifyAt : List α → ℕ → (α → α) → List α
  | [], _, _ => []
  | a :: t, 0, f => f a :: t
  | a :: t, n + 1, f => a :: modifyAt t n f

theorem modifyAt_length (l : List α) (i : ℕ) (f : α → α) :
    (modifyAt l i f).length = l.length := by
  induction l generalizing i with
  | nil => rfl
  | cons a t ih =>
    cases i with
    | zero => rfl
    | succ n => simpa [modifyAt] using ih n

theorem modifyAt_getElem? (l : List α) (i : ℕ) (f : α → α) (j : ℕ) :
    (modifyAt l i f)[j]? = if i = j then l[j]?.map f else l[j]? := by
  induction l generalizing i j with
  | nil => simp [modifyAt]
  | cons a t ih =>
    cases i with
    | zero => cases j <;> simp [modifyAt]
    | succ n =>
      cases j with
      | zero => simp [modifyAt]
      | succ m => simpa [modifyAt] using ih n m

theorem modifyAt_getElem?_ne (l : List α) (i : ℕ) (f : α → α) (j : ℕ)
    (h : i ≠ j) : (modifyAt l i f)[j]? = l[j]? := by
  simp [modifyAt_getElem?, h]

theorem modifyAt_getElem?_eq (l : List α) (i : ℕ) (f : α → α) :
    (modifyAt l i f)[i]? = l[i]?.map f := by
  simp [modifyAt_getElem?]

/-- Invariant preservation along a left fold. -/
theorem foldl_preserves {P : β → Prop} {f : β → α → β}
    (hf : ∀ s x, P s → P (f s x)) :
    ∀ (l : List α) (s : β), P s → P (l.foldl f s)
  | [], _, hs => hs
  | x :: t, s, hs => foldl_preserves hf t (f s x) (hf s x hs)

namespace Metro

/-- Passenger classes of `config.PassengerType`. -/
inductive PassengerType where
  | PA1
  | PA2
deriving DecidableEq

/-- Zones of `config.Position`. -/
inductive Position where
  | SA1
  | PW1
  | PW2
  | SA3
  | PASSED
deriving DecidableEq

/-- Parameter record of `config.SystemParameters` (a plain dataclass
without any validation logic). -/
structure SystemParameters where
  L_EN_PW1 : ℚ := 5.36
  L_EN_PW2 : ℚ := 4.69
  L_PW2 : ℚ := 4.55
  L_SE : ℚ := 2.3
  L_PW1_GA : ℚ := 3.65
  L_PW2_GA : ℚ := 4.07
  A_PW2 : ℚ := 10.2
  A_SA3 : ℚ := 29.7
  W_B : ℚ := 0.45
  v0 : ℚ := 1.61
  v_SE : ℚ := 0.2
  v_PW2_init : ℚ := 1.61
  v_SA3_init : ℚ := 1.61
  K_PW2_init : ℚ := 0.31
  K_SA3_init : ℚ := 0.31
  K_PW2_max : ℚ := 3.5
  K_SA3_max : ℚ := 3.5
  t_pi : ℚ := 2.0
  t_ti : ℚ := 2.0
  t_s : ℚ := 3.5
  N_G : ℤ := 5
  dt : ℚ := 0.1
deriving DecidableEq

/-- Construction of a `SystemParameters` record: the dataclass `__init__`
only stores the field values, it performs no validation and cannot raise. -/
def mkSystemParameters (L_EN_PW1 L_EN_PW2 L_PW2 L_SE L_PW1_GA L_PW2_GA
    A_PW2 A_SA3 W_B v0 v_SE v_PW2_init v_SA3_init K_PW2_init K_SA3_init
    K_PW2_max K_SA3_max t_pi t_ti t_s : ℚ) (N_G : ℤ) (dt : ℚ) :
    SystemParameters :=
  ⟨L_EN_PW1, L_EN_PW2, L_PW2, L_SE, L_PW1_GA, L_PW2_GA, A_PW2, A_SA3, W_B,
   v0, v_SE, v_PW2_init, v_SA3_init, K_PW2_init, K_SA3_init, K_PW2_max,
   K_SA3_max, t_pi, t_ti, t_s, N_G, dt⟩

/-- Default parameter set `DEFAULT_PARAMS = SystemParameters()`. -/
def DEFAULT_PARAMS : SystemParameters := {}

/-- Derived property `SystemParameters.W_PW2 = A_PW2 / L_PW2`. -/
def SystemParameters.W_PW2 (p : SystemParameters) : ℚ := p.A_PW2 / p.L_PW2

/-- Density-speed relation `SystemParameters.v_PW2` (Eq. 5). -/
def SystemParameters.v_PW2 (p : SystemParameters) (K : ℚ) : ℚ :=
  if K ≤ p.K_PW2_init then p.v_PW2_init
  else
    let x := K - p.K_PW2_init
    max (0.11 * x ^ 3 - 0.53 * x ^ 2 + 0.15 * x + 1.61) 0.01

/-- Density-speed relation `SystemParameters.v_SA3` (Eq. 8). -/
def SystemParameters.v_SA3 (p : SystemParameters) (K : ℚ) : ℚ :=
  if K ≤ p.K_SA3_init then p.v_SA3_init
  else
    let y := K - p.K_SA3_init
    max (0.11 * y ^ 3 - 0.53 * y ^ 2 + 0.15 * y + 1.61) 0.01

/-- Passenger record of `data_structures.Passenger`. -/
structure Passenger where
  index : ℤ
  ptype : PassengerType
  position : Position
  t_enter_SA1 : ℚ := 0
  t_enter_SA2 : ℚ := 0
  t_enter_SA3 : ℚ := 0
  t_exit_system : ℚ := 0
  t_SA1_basic : ℚ := 0
  t_PW_basic : ℚ := 0
  t_SA3_basic : ℚ := 0
  t_SA1_add : ℚ := 0
  t_SA2_add : ℚ := 0
  t_SA3_add : ℚ := 0
deriving DecidableEq

/-- Total transit time `Passenger.total_time`. -/
def Passenger.total_time (p : Passenger) : ℚ :=
  p.t_SA1_basic + p.t_PW_basic + p.t_SA3_basic +
    p.t_SA1_add + p.t_SA2_add + p.t_SA3_add

/-- One tick of the history log (`System.history` stores these values as
parallel lists keyed by `T`, `D_SA1`, ..., `K_SA3`). -/
structure HistoryRecord where
  T : ℚ
  D_SA1 : ℤ
  D_PW1 : ℤ
  D_PW2 : ℤ
  D_SA3 : ℤ
  D_pass : ℤ
  K_PW2 : ℚ
  K_SA3 : ℚ
deriving DecidableEq

/-- Aggregate state of `data_structures.System`. -/
structure System where
  params : SystemParameters
  T : ℚ := 0
  passengers : List Passenger := []
  next_passenger_id : ℤ := 0
  arrival_acc_PA1 : ℚ := 0
  arrival_acc_PA2 : ℚ := 0
  D_SA1 : ℤ := 0
  D_PW1 : ℤ := 0
  D_PW2 : ℤ := 0
  D_SA3 : ℤ := 0
  D_pass : ℤ := 0
  D_All : ℤ := 0
  history : List HistoryRecord := []
deriving DecidableEq

/-- Termination test `System.is_finished`: every zone empty and at least one
passenger has passed (the method never compares `D_pass` with `D_All`). -/
def System.is_finished (s : System) : Bool :=
  s.D_SA1 = 0 ∧ s.D_PW1 = 0 ∧ s.D_PW2 = 0 ∧ s.D_SA3 = 0 ∧ s.D_pass > 0

/-- Density helper `System.current_density_PW2`. -/
def System.current_density_PW2 (s : System) : ℚ := s.D_PW2 / s.params.A_PW2

/-- Density helper `System.current_density_SA3`. -/
def System.current_density_SA3 (s : System) : ℚ := s.D_SA3 / s.params.A_SA3

/-- Transit-time function `compute_t_SA1_basic` (Eq. 1 and Eq. 2). -/
def compute_t_SA1_basic (p : Passenger) (params : SystemParameters) : ℚ :=
  match p.ptype with
  | PassengerType.PA1 => params.L_EN_PW1 / params.v0
  | PassengerType.PA2 => params.L_EN_PW2 / params.v0

/-- Transit-time function `compute_t_PW1_basic` (Eq. 3). -/
def compute_t_PW1_basic (params : SystemParameters) : ℚ :=
  params.t_pi + params.L_SE / params.v_SE + params.t_ti

/-- Transit-time function `compute_t_PW2_basic` (Eq. 4 and Eq. 5). -/
def compute_t_PW2_basic (K_PW2 : ℚ) (params : SystemParameters) : ℚ :=
  params.L_PW2 / params.v_PW2 K_PW2

/-- Transit-time function `compute_t_SA3_basic` (Eq. 6, Eq. 7 and Eq. 8). -/
def compute_t_SA3_basic (p : Passenger) (K_SA3 : ℚ)
    (params : SystemParameters) : ℚ :=
  match p.ptype with
  | PassengerType.PA1 => params.L_PW1_GA / params.v_SA3 K_SA3 + params.t_s
  | PassengerType.PA2 => params.L_PW2_GA / params.v_SA3 K_SA3 + params.t_s

/-- Admission rule `check_PW1_admission`: single-server queue with the
hard-coded ceiling `MAX_PW1_CAPACITY = 200`. -/
def check_PW1_admission (candidates : List Passenger) (D_PW1 : ℤ)
    (_params : SystemParameters) : ℤ :=
  if candidates.length = 0 then 0
  else if D_PW1 ≥ 200 then 0
  else 1

/-- Admission rule `check_PW2_admission` (Eq. 10 and Eq. 11). -/
def check_PW2_admission (candidates : List Passenger) (D_PW2 : ℤ)
    (K_PW2 : ℚ) (params : SystemParameters) : ℤ :=
  if K_PW2 ≥ params.K_PW2_max then 0
  else
    let max_parallel := pyInt (params.W_PW2 / params.W_B)
    let max_capacity := pyInt (params.A_PW2 * params.K_PW2_max)
    let remaining := max_capacity - D_PW2
    if remaining ≤ 0 then 0
    else min (min (candidates.length : ℤ) max_parallel) remaining

/-- Admission rule `check_SA3_admission` (Eq. 12). -/
def check_SA3_admission (candidates : List Passenger) (D_SA3 : ℤ)
    (_K_SA3 : ℚ) (params : SystemParameters) : ℤ :=
  let remaining_capacity := params.A_SA3 * params.K_SA3_max - (D_SA3 : ℚ)
  let max_allowed := if remaining_capacity > 0 then pyInt remaining_capacity else 0
  min (candidates.length : ℤ) max_allowed

/-- Admission rule `check_gate_admission`: at most `N_G` per tick. -/
def check_gate_admission (candidates : List Passenger)
    (params : SystemParameters) : ℤ :=
  min (candidates.length : ℤ) params.N_G

/-- The five candidate sets built by `step_C_construct_candidates`; each
entry pairs the passenger's slot in `System.passengers` with the passenger
value at candidate-construction time (Python keeps object references). -/
structure Candidates where
  U_SA1_PW1 : List (ℕ × Passenger)
  U_SA1_PW2 : List (ℕ × Passenger)
  U_PW1_SA3 : List (ℕ × Passenger)
  U_PW2_SA3 : List (ℕ × Passenger)
  U_SA3_GA : List (ℕ × Passenger)
deriving DecidableEq

/-- Ordering used by `.sort(key=lambda p: p.index)`. -/
def byIndex (a b : ℕ × Passenger) : Prop := a.2.index ≤ b.2.index

instance : DecidableRel byIndex :=
  fun a b => inferInstanceAs (Decidable (a.2.index ≤ b.2.index))

/-- Stable sort by passenger index; Python's `list.sort` is stable, so the
stable `insertionSort` computes the same list. -/
def sortByIndex (l : List (ℕ × Passenger)) : List (ℕ × Passenger) :=
  l.insertionSort byIndex

/-- The passenger object a candidate entry currently references: the live
value at that slot of the passenger list. -/
def getLive (st : System) (e : ℕ × Passenger) : Passenger :=
  st.passengers.getD e.1 e.2

/-- Emission order of the alternating numbering loop (Strategy 1) in
`step_A_arrivals`: `for i in range(max(n_PA1, n_PA2))`, appending a `PA1`
while `i < n_PA1` and then a `PA2` while `i < n_PA2`. -/
def arrivalTypes (n_PA1 n_PA2 : ℤ) : List PassengerType :=
  (List.range (max n_PA1 n_PA2).toNat).foldl
    (fun (acc : List PassengerType) (i : ℕ) =>
      (acc ++ (if (i : ℤ) < n_PA1 then [PassengerType.PA1] else [])) ++
        (if (i : ℤ) < n_PA2 then [PassengerType.PA2] else []))
    []

/-- The passenger object the arrivals loop creates: built in `SA1`, then
`t_enter_SA1 = T`, `t_SA1_basic = compute_t_SA1_basic(p)` and
`t_SA1_add = 0` are assigned. -/
def mkArrival (idx : ℤ) (pt : PassengerType) (T : ℚ)
    (prms : SystemParameters) : Passenger :=
  let p0 : Passenger := { index := idx, ptype := pt, position := Position.SA1 }
  { p0 with
      t_enter_SA1 := T,
      t_SA1_basic := compute_t_SA1_basic p0 prms,
      t_SA1_add := 0 }

/-- Loop body of the arrivals loop: append one new passenger and update
the id counter and the counts. -/
def arrival_append (st : System) (ptype : PassengerType) : System :=
  { st with
      passengers := st.passengers ++
        [mkArrival st.next_passenger_id ptype st.T st.params],
      next_passenger_id := st.next_passenger_id + 1,
      D_SA1 := st.D_SA1 + 1,
      D_All := st.D_All + 1 }

/-- Step A of `simulation_step`: accumulate fractional arrivals, emit the
integer parts, and append the new passengers in alternating order. -/
def step_A_arrivals (system : System) (q_PA1 q_PA2 : ℚ) : System :=
  let acc_PA1 := system.arrival_acc_PA1 + q_PA1 * system.params.dt
  let acc_PA2 := system.arrival_acc_PA2 + q_PA2 * system.params.dt
  let n_PA1 := pyInt acc_PA1
  let n_PA2 := pyInt acc_PA2
  let s0 := { system with
    arrival_acc_PA1 := acc_PA1 - n_PA1
    arrival_acc_PA2 := acc_PA2 - n_PA2 }
  (arrivalTypes n_PA1 n_PA2).foldl arrival_append s0

/-- Step B of `simulation_step`: the density snapshot
`(D_PW2 / A_PW2, D_SA3 / A_SA3)` taken before any transfer. -/
def step_B_update_densities (system : System) : ℚ × ℚ :=
  (system.D_PW2 / system.params.A_PW2, system.D_SA3 / system.params.A_SA3)

/-- Step C of `simulation_step`: build the five FIFO candidate lists from
the scheduled departure times, sorted by passenger index. -/
def step_C_construct_candidates (system : System) : Candidates :=
  let T := system.T
  let en := system.passengers.enum
  { U_SA1_PW1 := sortByIndex (en.filter fun e =>
      decide (e.2.position = Position.SA1 ∧ e.2.ptype = PassengerType.PA1 ∧
        e.2.t_enter_SA1 + e.2.t_SA1_basic + e.2.t_SA1_add ≤ T))
    U_SA1_PW2 := sortByIndex (en.filter fun e =>
      decide (e.2.position = Position.SA1 ∧ e.2.ptype = PassengerType.PA2 ∧
        e.2.t_enter_SA1 + e.2.t_SA1_basic + e.2.t_SA1_add ≤ T))
    U_PW1_SA3 := sortByIndex (en.filter fun e =>
      decide (e.2.position = Position.PW1 ∧
        e.2.t_enter_SA2 + e.2.t_PW_basic + e.2.t_SA2_add ≤ T))
    U_PW2_SA3 := sortByIndex (en.filter fun e =>
      decide (e.2.position = Position.PW2 ∧
        e.2.t_enter_SA2 + e.2.t_PW_basic + e.2.t_SA2_add ≤ T))
    U_SA3_GA := sortByIndex (en.filter fun e =>
      decide (e.2.position = Position.SA3 ∧
        e.2.t_enter_SA3 + e.2.t_SA3_basic + e.2.t_SA3_add ≤ T)) }

/-- Mutation applied to a passenger admitted from `SA1` into the security
lane. -/
def admFnPW1 (T : ℚ) (prms : SystemParameters) (p : Passenger) : Passenger :=
  { p with position := Position.PW1, t_enter_SA2 := T,
           t_PW_basic := compute_t_PW1_basic prms, t_SA2_add := 0 }

/-- Mutation applied to a passenger admitted from `SA1` into the fast
lane. -/
def admFnPW2 (T K_PW2 : ℚ) (prms : SystemParameters) (p : Passenger) : Passenger :=
  { p with position := Position.PW2, t_enter_SA2 := T,
           t_PW_basic := compute_t_PW2_basic K_PW2 prms, t_SA2_add := 0 }

/-- Mutation applied to a passenger rejected while waiting in `SA1`. -/
def rejFnSA1 (prms : SystemParameters) (p : Passenger) : Passenger :=
  { p with t_SA1_add := p.t_SA1_add + prms.dt }

/-- Mutation applied to a passenger admitted from a lane into `SA3`. -/
def admFnSA3 (T K_SA3 : ℚ) (prms : SystemParameters) (p : Passenger) : Passenger :=
  { p with position := Position.SA3, t_enter_SA3 := T,
           t_SA3_basic := compute_t_SA3_basic p K_SA3 prms, t_SA3_add := 0 }

/-- Mutation applied to a passenger rejected while waiting in a lane. -/
def rejFnSA2 (prms : SystemParameters) (p : Passenger) : Passenger :=
  { p with t_SA2_add := p.t_SA2_add + prms.dt }

/-- Mutation applied to a passenger passing the gate. -/
def admFnGate (T : ℚ) (p : Passenger) : Passenger :=
  { p with position := Position.PASSED, t_exit_system := T }

/-- Mutation applied to a passenger rejected at the gate. -/
def rejFnSA3 (prms : SystemParameters) (p : Passenger) : Passenger :=
  { p with t_SA3_add := p.t_SA3_add + prms.dt }

/-- Step D of `simulation_step`: the two `SA1 → PW` transfers (`PA1` to the
security lane, then `PA2` to the fast lane); rejected candidates accrue
`t_SA1_add += dt`. -/
def step_D_SA1_to_PW (system : System) (candidates : Candidates)
    (K_PW2 : ℚ) : System :=
  let T := system.T
  let prms := system.params
  let U_SA1_PW1 := candidates.U_SA1_PW1
  let allowed_PW1 :=
    check_PW1_admission (U_SA1_PW1.map Prod.snd) system.D_PW1 prms
  let i1 := pySliceIdx U_SA1_PW1.length allowed_PW1
  let s1 := (U_SA1_PW1.take i1).foldl
    (fun st e =>
      { st with
        passengers := modifyAt st.passengers e.1 (admFnPW1 T prms)
        D_SA1 := st.D_SA1 - 1
        D_PW1 := st.D_PW1 + 1 })
    system
  let s2 := (U_SA1_PW1.drop i1).foldl
    (fun st e =>
      { st with passengers := modifyAt st.passengers e.1 (rejFnSA1 prms) })
    s1
  let U_SA1_PW2 := candidates.U_SA1_PW2
  let allowed_PW2 :=
    check_PW2_admission (U_SA1_PW2.map Prod.snd) s2.D_PW2 K_PW2 prms
  let i2 := pySliceIdx U_SA1_PW2.length allowed_PW2
  let s3 := (U_SA1_PW2.take i2).foldl
    (fun st e =>
      { st with
        passengers := modifyAt st.passengers e.1 (admFnPW2 T K_PW2 prms)
        D_SA1 := st.D_SA1 - 1
        D_PW2 := st.D_PW2 + 1 })
    s2
  (U_SA1_PW2.drop i2).foldl
    (fun st e =>
      { st with passengers := modifyAt st.passengers e.1 (rejFnSA1 prms) })
    s3

/-- Step E of `simulation_step`: the merged `PW → SA3` transfer; the merged
queue is re-sorted by index, rejected candidates accrue `t_SA2_add += dt`. -/
def step_E_PW_to_SA3 (system : System) (candidates : Candidates)
    (K_SA3 : ℚ) : System :=
  let T := system.T
  let prms := system.params
  let U_PW_SA3 := sortByIndex (candidates.U_PW1_SA3 ++ candidates.U_PW2_SA3)
  let allowed :=
    check_SA3_admission (U_PW_SA3.map Prod.snd) system.D_SA3 K_SA3 prms
  let i := pySliceIdx U_PW_SA3.length allowed
  let s1 := (U_PW_SA3.take i).foldl
    (fun st e =>
      let old_pos := (getLive st e).position
      { st with
        passengers := modifyAt st.passengers e.1 (admFnSA3 T K_SA3 prms)
        D_PW1 := if old_pos = Position.PW1 then st.D_PW1 - 1 else st.D_PW1
        D_PW2 := if old_pos = Position.PW1 then st.D_PW2 else st.D_PW2 - 1
        D_SA3 := st.D_SA3 + 1 })
    system
  (U_PW_SA3.drop i).foldl
    (fun st e =>
      { st with passengers := modifyAt st.passengers e.1 (rejFnSA2 prms) })
    s1

/-- Step F of `simulation_step`: the `SA3 → Gate` transfer; admitted
passengers leave the system, rejected ones accrue `t_SA3_add += dt`. -/
def step_F_SA3_to_Gate (system : System) (candidates : Candidates) : System :=
  let T := system.T
  let prms := system.params
  let U_SA3_GA := candidates.U_SA3_GA
  let allowed := check_gate_admission (U_SA3_GA.map Prod.snd) prms
  let i := pySliceIdx U_SA3_GA.length allowed
  let s1 := (U_SA3_GA.take i).foldl
    (fun st e =>
      { st with
        passengers := modifyAt st.passengers e.1 (admFnGate T)
        D_SA3 := st.D_SA3 - 1
        D_pass := st.D_pass + 1 })
    system
  (U_SA3_GA.drop i).foldl
    (fun st e =>
      { st with passengers := modifyAt st.passengers e.1 (rejFnSA3 prms) })
    s1

/-- Step G of `simulation_step`: append one record to the history log. -/
def step_G_record_history (system : System) (K_PW2 K_SA3 : ℚ) : System :=
  { system with history := system.history ++
      [{ T := system.T, D_SA1 := system.D_SA1, D_PW1 := system.D_PW1,
         D_PW2 := system.D_PW2, D_SA3 := system.D_SA3,
         D_pass := system.D_pass, K_PW2 := K_PW2, K_SA3 := K_SA3 }] }

/-- Conservation invariant checked at the end of every tick. -/
def conservation (s : System) : Prop :=
  s.D_SA1 + s.D_PW1 + s.D_PW2 + s.D_SA3 + s.D_pass = s.D_All

instance (s : System) : Decidable (conservation s) :=
  inferInstanceAs (Decidable (_ = _))

/-- One tick of `simulation_step`, in the order the source executes it:
A (arrivals), B (density snapshot), C (candidates), E (`PW → SA3`),
D (`SA1 → PW`), F (`SA3 → Gate`), G (history), the conservation check
(raising `RuntimeError` on violation), then H (clock advance). -/
def simulation_step (system : System) (q_PA1 q_PA2 : ℚ) :
    Except String System :=
  let sA := step_A_arrivals system q_PA1 q_PA2
  let Ks := step_B_update_densities sA
  let candidates := step_C_construct_candidates sA
  let sE := step_E_PW_to_SA3 sA candidates Ks.2
  let sD := step_D_SA1_to_PW sE candidates Ks.1
  let sF := step_F_SA3_to_Gate sD candidates
  let sG := step_G_record_history sF Ks.1 Ks.2
  let total := sG.D_SA1 + sG.D_PW1 + sG.D_PW2 + sG.D_SA3 + sG.D_pass
  if total ≠ sG.D_All then
    Except.error "conservation check failed"
  else
    Except.ok { sG with T := sG.T + sG.params.dt }

/-- Outer driver `run_simulation`: repeat the tick while the system is not
finished and `T < max_time` (the `fuel` argument only bounds the recursion;
with enough fuel the loop semantics is exact). -/
def run_simulation (fuel : ℕ) (system : System) (q_PA1 q_PA2 : ℚ)
    (max_time : ℚ) : Except String System :=
  match fuel with
  | 0 => Except.ok system
  | fuel + 1 =>
    if ¬ system.is_finished ∧ system.T < max_time then
      match simulation_step system q_PA1 q_PA2 with
      | Except.ok s' => run_simulation fuel s' q_PA1 q_PA2 max_time
      | Except.error e => Except.error e
    else
      Except.ok system

end Metro

namespace FullPhysics

/-- Parameter record of the full-physics variant's
`config.SystemParameters` (Table 2). -/
structure SystemParameters where
  L_EN_PW1 : ℚ := 5.36
  L_EN_PW2 : ℚ := 4.69
  L_PW2 : ℚ := 4.55
  L_SE : ℚ := 2.3
  L_PW1_GA : ℚ := 3.65
  L_PW2_GA : ℚ := 4.07
  A_PW2 : ℚ := 10.2
  A_SA3 : ℚ := 21.8
  H : ℚ := 0.5
  H_bag : ℚ := 0.15
  W_B : ℚ := 0.5
  v0 : ℚ := 1.61
  v_SE : ℚ := 0.2
  v_PW2_init : ℚ := 1.61
  v_SA3_init : ℚ := 1.61
  K_PW2_init : ℚ := 0.31
  K_SA3_init : ℚ := 0.31
  K_PW2_max : ℚ := 3.5
  K_SA3_max : ℚ := 3.5
  t_pi : ℚ := 2.0
  t_ti : ℚ := 2.0
  t_s : ℚ := 3.5
  N_G : ℤ := 5
  dt : ℚ := 0.1
deriving DecidableEq

/-- Derived property `SystemParameters.W_PW2 = A_PW2 / L_PW2`. -/
def SystemParameters.W_PW2 (p : SystemParameters) : ℚ := p.A_PW2 / p.L_PW2

/-- Full-physics `check_PW1_admission` (Eq. 9): conveyor capacity minus the
current occupancy, floored at 0; no candidate list is consulted. -/
def check_PW1_admission (D_PW1_current : ℤ) (params : SystemParameters) : ℤ :=
  let capacity := pyInt (params.L_SE / params.H_bag)
  let available := capacity - D_PW1_current
  max 0 available

/-- Full-physics `check_PW2_admission` (Eq. 10 and Eq. 11): the minimum of
the body-width cap and the remaining density capacity; no candidate list
is consulted. -/
def check_PW2_admission (_D_PW2_current : ℤ) (K_PW2_current : ℚ)
    (params : SystemParameters) : ℤ :=
  let width_limit := pyInt (params.W_PW2 / params.W_B)
  let density_limit :=
    max 0 (pyInt (params.A_PW2 * (params.K_PW2_max - K_PW2_current)))
  min width_limit density_limit

/-- Full-physics `check_SA3_admission` (Eq. 12). -/
def check_SA3_admission (_D_SA3_current : ℤ) (K_SA3_current : ℚ)
    (params : SystemParameters) : ℤ :=
  max 0 (pyInt (params.A_SA3 * (params.K_SA3_max - K_SA3_current)))

/-- Full-physics `check_gate_admission`: number of free gates, floored
at 0. -/
def check_gate_admission (free_gates : ℤ) : ℤ :=
  max 0 free_gates

end FullPhysics

namespace Metro

theorem conservation_step_A (s : System) (q_PA1 q_PA2 : ℚ)
    (h : conservation s) : conservation (step_A_arrivals s q_PA1 q_PA2) := by
  simp only [step_A_arrivals]
  refine foldl_preserves (fun st x hst => ?_) _ _ ?_
  · simp only [conservation, arrival_append] at hst ⊢
    omega
  · simpa [conservation] using h

theorem conservation_step_E (s : System) (c : Candidates) (K_SA3 : ℚ)
    (h : conservation s) : conservation (step_E_PW_to_SA3 s c K_SA3) := by
  simp only [step_E_PW_to_SA3]
  refine foldl_preserves (fun st x hst => ?_) _ _
    (foldl_preserves (fun st x hst => ?_) _ _ h)
  · simpa [conservation] using hst
  · simp only [conservation] at hst ⊢
    split <;> omega

theorem conservation_step_D (s : System) (c : Candidates) (K_PW2 : ℚ)
    (h : conservation s) : conservation (step_D_SA1_to_PW s c K_PW2) := by
  simp only [step_D_SA1_to_PW]
  refine foldl_preserves (fun st x hst => ?_) _ _
    (foldl_preserves (fun st x hst => ?_) _ _
      (foldl_preserves (fun st x hst => ?_) _ _
        (foldl_preserves (fun st x hst => ?_) _ _ h)))
  · simpa [conservation] using hst
  · simp only [conservation] at hst ⊢
    omega
  · simpa [conservation] using hst
  · simp only [conservation] at hst ⊢
    omega

theorem conservation_step_F (s : System) (c : Candidates)
    (h : conservation s) : conservation (step_F_SA3_to_Gate s c) := by
  simp only [step_F_SA3_to_Gate]
  refine foldl_preserves (fun st x hst => ?_) _ _
    (foldl_preserves (fun st x hst => ?_) _ _ h)
  · simpa [conservation] using hst
  · simp only [conservation] at hst ⊢
    omega

theorem conservation_step_G (s : System) (K_PW2 K_SA3 : ℚ)
    (h : conservation s) : conservation (step_G_record_history s K_PW2 K_SA3) := by
  simpa [conservation, step_G_record_history] using h

/-- The state of the tick after step G, right before the conservation
check and the clock advance (steps A, B, C, E, D, F, G in code order). -/
def tick_pre_check (system : System) (q_PA1 q_PA2 : ℚ) : System :=
  let sA := step_A_arrivals system q_PA1 q_PA2
  let Ks := step_B_update_densities sA
  let candidates := step_C_construct_candidates sA
  let sE := step_E_PW_to_SA3 sA candidates Ks.2
  let sD := step_D_SA1_to_PW sE candidates Ks.1
  let sF := step_F_SA3_to_Gate sD candidates
  step_G_record_history sF Ks.1 Ks.2

/-- The tick raises exactly when the conservation check on the post-step-G
state fails, and otherwise only advances the clock. -/
theorem simulation_step_eq_check (s : System) (q_PA1 q_PA2 : ℚ) :
    simulation_step s q_PA1 q_PA2 =
      if conservation (tick_pre_check s q_PA1 q_PA2) then
        Except.ok { tick_pre_check s q_PA1 q_PA2 with
          T := (tick_pre_check s q_PA1 q_PA2).T +
            (tick_pre_check s q_PA1 q_PA2).params.dt }
      else Except.error "conservation check failed" := by
  have key : simulation_step s q_PA1 q_PA2 =
      if (tick_pre_check s q_PA1 q_PA2).D_SA1 +
          (tick_pre_check s q_PA1 q_PA2).D_PW1 +
          (tick_pre_check s q_PA1 q_PA2).D_PW2 +
          (tick_pre_check s q_PA1 q_PA2).D_SA3 +
          (tick_pre_check s q_PA1 q_PA2).D_pass ≠
          (tick_pre_check s q_PA1 q_PA2).D_All then
        Except.error "conservation check failed"
      else
        Except.ok { tick_pre_check s q_PA1 q_PA2 with
          T := (tick_pre_check s q_PA1 q_PA2).T +
            (tick_pre_check s q_PA1 q_PA2).params.dt } := rfl
  rw [key]
  by_cases h : conservation (tick_pre_check s q_PA1 q_PA2)
  · have h2 : (tick_pre_check s q_PA1 q_PA2).D_SA1 +
        (tick_pre_check s q_PA1 q_PA2).D_PW1 +
        (tick_pre_check s q_PA1 q_PA2).D_PW2 +
        (tick_pre_check s q_PA1 q_PA2).D_SA3 +
        (tick_pre_check s q_PA1 q_PA2).D_pass =
        (tick_pre_check s q_PA1 q_PA2).D_All := h
    rw [if_neg (not_not_intro h2), if_pos h]
  · have h2 : ¬ ((tick_pre_check s q_PA1 q_PA2).D_SA1 +
        (tick_pre_check s q_PA1 q_PA2).D_PW1 +
        (tick_pre_check s q_PA1 q_PA2).D_PW2 +
        (tick_pre_check s q_PA1 q_PA2).D_SA3 +
        (tick_pre_check s q_PA1 q_PA2).D_pass =
        (tick_pre_check s q_PA1 q_PA2).D_All) := h
    rw [if_pos h2, if_neg h]

theorem conservation_tick_pre_check (s : System) (q_PA1 q_PA2 : ℚ)
    (h : conservation s) : conservation (tick_pre_check s q_PA1 q_PA2) := by
  simp only [tick_pre_check]
  exact conservation_step_G _ _ _
    (conservation_step_F _ _
      (conservation_step_D _ _ _
        (conservation_step_E _ _ _
          (conservation_step_A _ _ _ h))))

/-- When the invariant holds on entry, the end-of-tick check passes and the
tick returns a state that satisfies it again. -/
theorem simulation_step_ok_of_conservation (s : System) (q_PA1 q_PA2 : ℚ)
    (h : conservation s) :
    ∃ s', simulation_step s q_PA1 q_PA2 = Except.ok s' ∧ conservation s' := by
  have hG := conservation_tick_pre_check s q_PA1 q_PA2 h
  rw [simulation_step_eq_check, if_pos hG]
  exact ⟨_, rfl, by simpa [conservation] using hG⟩

/-- Every state the tick returns satisfies the invariant, whatever the
input state was: the final check admits no other outcome. -/
theorem simulation_step_conservation_of_ok (s : System) (q_PA1 q_PA2 : ℚ)
    (s' : System) (h : simulation_step s q_PA1 q_PA2 = Except.ok s') :
    conservation s' := by
  simp only [simulation_step] at h
  split at h
  · exact absurd h (by simp)
  · rename_i hcond
    rw [not_not] at hcond
    obtain rfl : _ = s' := Except.ok.inj h
    simpa [conservation] using hcond

/-- Fresh system with default parameters, as `System(params=SystemParameters())`. -/
def emptySystem : System := { params := {} }

/-- For any parameter record, a fresh system satisfies the conservation
invariant trivially. -/
theorem conservation_fresh (prms : SystemParameters) :
    conservation { params := prms } := by
  simp [conservation]

end Metro

namespace Metro

/-- C1: after every tick that `simulation_step` completes, the per-zone
occupancy counters and the departed count together account for every
arrival (`D_SA1 + D_PW1 + D_PW2 + D_SA3 + D_pass = D_All`); from an
invariant-satisfying state the tick always completes and re-establishes the
invariant, and when the end-of-tick equality fails the engine returns the
fatal `RuntimeError` instead of a corrected state. -/
theorem c1_conservation_invariant (s : System) (q_PA1 q_PA2 : ℚ) :
    (conservation s →
      ∃ s', simulation_step s q_PA1 q_PA2 = Except.ok s' ∧ conservation s') ∧
    (∀ s', simulation_step s q_PA1 q_PA2 = Except.ok s' → conservation s') ∧
    (¬ conservation (tick_pre_check s q_PA1 q_PA2) →
      simulation_step s q_PA1 q_PA2 = Except.error "conservation check failed") :=
  ⟨simulation_step_ok_of_conservation s q_PA1 q_PA2,
   fun s' h => simulation_step_conservation_of_ok s q_PA1 q_PA2 s' h,
   fun hnot => by rw [simulation_step_eq_check, if_neg hnot]⟩

/-- Witness for C1 at the fresh default system. -/
theorem c1_conservation_invariant_witness :
    ∃ s', simulation_step emptySystem 0 0 = Except.ok s' ∧ conservation s' :=
  (c1_conservation_invariant emptySystem 0 0).1 (by simp [conservation, emptySystem])

/-- Defective configuration: negative fast-lane and pre-gate areas,
negative free-flow speed and zero gates. Every division this tick
executes keeps a nonzero denominator (`A_PW2 = A_SA3 = -1`, the lane
lengths and body width at their defaults, and with no arrivals `v0` is
never divided by), so the reference engine completes the tick on this
record as well. -/
def badParams : SystemParameters :=
  mkSystemParameters 5.36 4.69 4.55 2.3 3.65 4.07 (-1) (-1) 0.45 (-1) 0.2 1.61
    1.61 0.31 0.31 3.5 3.5 2 2 3.5 0 0.1

/-- One tick on a fresh system carrying the defective configuration:
no step of the engine checks the parameters, the tick completes and
returns the record unchanged, logging the (negative-area) densities
`0 / (-1) = 0`. -/
theorem badParamsStep :
    simulation_step { params := badParams } 0 0 =
      Except.ok
        { params := badParams,
          T := 0.1,
          history := [{ T := 0, D_SA1 := 0, D_PW1 := 0, D_PW2 := 0,
                        D_SA3 := 0, D_pass := 0, K_PW2 := 0, K_SA3 := 0 }] } := by
  have hA : step_A_arrivals { params := badParams } 0 0 =
      { params := badParams } := by
    simp [step_A_arrivals, arrivalTypes, pyInt]
  have hB : step_B_update_densities { params := badParams } =
      ((0 : ℚ), (0 : ℚ)) := by
    norm_num [step_B_update_densities]
  have hC : step_C_construct_candidates { params := badParams } =
      { U_SA1_PW1 := [], U_SA1_PW2 := [], U_PW1_SA3 := [], U_PW2_SA3 := [],
        U_SA3_GA := [] } := by
    simp [step_C_construct_candidates, sortByIndex, List.insertionSort]
  have hE : step_E_PW_to_SA3 { params := badParams }
      { U_SA1_PW1 := [], U_SA1_PW2 := [], U_PW1_SA3 := [], U_PW2_SA3 := [],
        U_SA3_GA := [] } 0 =
      { params := badParams } := by
    simp [step_E_PW_to_SA3, sortByIndex, List.insertionSort]
  have hD : step_D_SA1_to_PW { params := badParams }
      { U_SA1_PW1 := [], U_SA1_PW2 := [], U_PW1_SA3 := [], U_PW2_SA3 := [],
        U_SA3_GA := [] } 0 =
      { params := badParams } := by
    simp [step_D_SA1_to_PW]
  have hF : step_F_SA3_to_Gate { params := badParams }
      { U_SA1_PW1 := [], U_SA1_PW2 := [], U_PW1_SA3 := [], U_PW2_SA3 := [],
        U_SA3_GA := [] } =
      { params := badParams } := by
    simp [step_F_SA3_to_Gate]
  simp only [simulation_step, hA, hB, hC, hE, hD, hF]
  norm_num [step_G_record_history, badParams, mkSystemParameters,
    System.mk.injEq, HistoryRecord.mk.injEq]

/-- C7 counterexample: constructing a parameter set from a defective
configuration (negative areas, negative speed, zero gates) raises
nothing — the record is built with exactly those values, and a simulation
tick then runs to completion on it carrying the record unchanged, so the
invalid configuration does reach mid-simulation. -/
theorem c7_counterexample :
    badParams.N_G = 0 ∧ badParams.v0 = -1 ∧ badParams.A_PW2 = -1 ∧
      badParams.A_SA3 = -1 ∧
      simulation_step { params := badParams } 0 0 =
        Except.ok
          { params := badParams,
            T := 0.1,
            history := [{ T := 0, D_SA1 := 0, D_PW1 := 0, D_PW2 := 0,
                          D_SA3 := 0, D_pass := 0, K_PW2 := 0, K_SA3 := 0 }] } :=
  ⟨rfl, rfl, rfl, rfl, badParamsStep⟩

/-- C7 (amended): `SystemParameters` construction performs no validation
at all — for every input (zero gates, negative speeds and areas included)
the dataclass stores the given field values unchanged and raises nothing;
no parameter check exists downstream either, so the invalid record reaches
mid-simulation rather than failing fast: on the defective `badParams`
configuration a full tick completes and hands the record back unchanged.
(Crashes such as a `ZeroDivisionError` on a zero-area record are incidental
arithmetic failures inside a step, not configuration validation.) -/
theorem c7_no_construction_validation :
    (∀ (a b c d e f g h i j k l m n o p q r t u : ℚ) (ng : ℤ) (dtv : ℚ),
      mkSystemParameters a b c d e f g h i j k l m n o p q r t u ng dtv =
        { L_EN_PW1 := a, L_EN_PW2 := b, L_PW2 := c, L_SE := d, L_PW1_GA := e,
          L_PW2_GA := f, A_PW2 := g, A_SA3 := h, W_B := i, v0 := j,
          v_SE := k, v_PW2_init := l, v_SA3_init := m, K_PW2_init := n,
          K_SA3_init := o, K_PW2_max := p, K_SA3_max := q, t_pi := r,
          t_ti := t, t_s := u, N_G := ng, dt := dtv }) ∧
    (∃ s', simulation_step { params := badParams } 0 0 = Except.ok s' ∧
      s'.params = badParams) := by
  refine ⟨fun a b c d e f g h i j k l m n o p q r t u ng dtv => rfl, ?_⟩
  exact ⟨_, badParamsStep, rfl⟩

end Metro

namespace Metro

/-- Two checked passengers waiting in the entry zone, both already eligible
to enter the security lane. -/
def pd0 : Passenger := { index := 0, ptype := PassengerType.PA1, position := Position.SA1 }

/-- Second checked passenger of the drain scenario. -/
def pd1 : Passenger := { index := 1, ptype := PassengerType.PA1, position := Position.SA1 }

/-- Bottleneck scenario: two eligible security-lane candidates in the entry
zone of an otherwise empty default system. -/
def drainState : System :=
  { params := {}, passengers := [pd0, pd1], next_passenger_id := 2,
    D_SA1 := 2, D_All := 2 }

/-- Passenger `pd0` after the single-server transfer into the security
lane. -/
def pd0' : Passenger :=
  { pd0 with
      position := Position.PW1,
      t_enter_SA2 := 0,
      t_PW_basic := 15.5,
      t_SA2_add := 0 }

/-- Passenger `pd1` after one blocked tick in the entry zone. -/
def pd1' : Passenger := { pd1 with t_SA1_add := 0.1 }

/-- Candidate sets the drain scenario produces. -/
def cDrain : Candidates :=
  { U_SA1_PW1 := [(0, pd0), (1, pd1)], U_SA1_PW2 := [], U_PW1_SA3 := [],
    U_PW2_SA3 := [], U_SA3_GA := [] }

/-- Drain state after the two `SA1 -> PW` sub-transfers. -/
def dState2 : System :=
  { drainState with
      passengers := [pd0', pd1'],
      D_SA1 := 1,
      D_PW1 := 1 }

/-- Final state of the drain tick. -/
def dFinal : System :=
  { dState2 with
      T := 0.1,
      history := [{ T := 0, D_SA1 := 1, D_PW1 := 1, D_PW2 := 0, D_SA3 := 0,
                    D_pass := 0, K_PW2 := 0, K_SA3 := 0 }] }

theorem drainState_eval : simulation_step drainState 0 0 = Except.ok dFinal := by
  have hA : step_A_arrivals drainState 0 0 = drainState := by
    simp [step_A_arrivals, arrivalTypes, pyInt, drainState]
  have hB : step_B_update_densities drainState = ((0 : ℚ), (0 : ℚ)) := by
    norm_num [step_B_update_densities, drainState]
  have hC : step_C_construct_candidates drainState = cDrain := by
    norm_num [step_C_construct_candidates, drainState, pd0, pd1, cDrain,
      List.enum, List.enumFrom, List.filter, sortByIndex, byIndex,
      List.insertionSort, List.orderedInsert, Candidates.mk.injEq]
  have hE : step_E_PW_to_SA3 drainState cDrain 0 = drainState := by
    norm_num [step_E_PW_to_SA3, cDrain, sortByIndex, List.insertionSort,
      check_SA3_admission, pyInt, pySliceIdx, drainState]
  have hD : step_D_SA1_to_PW drainState cDrain 0 = dState2 := by
    norm_num [step_D_SA1_to_PW, cDrain, check_PW1_admission, drainState,
      pySliceIdx, modifyAt, compute_t_PW1_basic, dState2, pd0, pd1, pd0',
      pd1', admFnPW1, rejFnSA1, System.mk.injEq, Passenger.mk.injEq]
  have hF : step_F_SA3_to_Gate dState2 cDrain = dState2 := by
    norm_num [step_F_SA3_to_Gate, cDrain, check_gate_admission, pySliceIdx,
      dState2]
  simp only [simulation_step, hA, hB, hC, hE, hD, hF]
  norm_num [step_G_record_history, dState2, dFinal, drainState,
    System.mk.injEq, HistoryRecord.mk.injEq]

end Metro

namespace Metro

/-- One tick on a passenger-free system with default parameters just
advances the clock and logs an all-zero history record. -/
theorem emptyStep (t : ℚ) (hist : List HistoryRecord) :
    simulation_step { params := {}, T := t, history := hist } 0 0 =
      Except.ok
        { params := {},
          T := t + 0.1,
          history := hist ++
            [{ T := t, D_SA1 := 0, D_PW1 := 0, D_PW2 := 0, D_SA3 := 0,
               D_pass := 0, K_PW2 := 0, K_SA3 := 0 }] } := by
  have hA : step_A_arrivals { params := {}, T := t, history := hist } 0 0 =
      { params := {}, T := t, history := hist } := by
    simp [step_A_arrivals, arrivalTypes, pyInt]
  have hB : step_B_update_densities { params := {}, T := t, history := hist } =
      ((0 : ℚ), (0 : ℚ)) := by
    norm_num [step_B_update_densities]
  have hC : step_C_construct_candidates { params := {}, T := t, history := hist } =
      { U_SA1_PW1 := [], U_SA1_PW2 := [], U_PW1_SA3 := [], U_PW2_SA3 := [],
        U_SA3_GA := [] } := by
    simp [step_C_construct_candidates, sortByIndex, List.insertionSort]
  have hE : step_E_PW_to_SA3 { params := {}, T := t, history := hist }
      { U_SA1_PW1 := [], U_SA1_PW2 := [], U_PW1_SA3 := [], U_PW2_SA3 := [],
        U_SA3_GA := [] } 0 =
      { params := {}, T := t, history := hist } := by
    simp [step_E_PW_to_SA3, sortByIndex, List.insertionSort]
  have hD : step_D_SA1_to_PW { params := {}, T := t, history := hist }
      { U_SA1_PW1 := [], U_SA1_PW2 := [], U_PW1_SA3 := [], U_PW2_SA3 := [],
        U_SA3_GA := [] } 0 =
      { params := {}, T := t, history := hist } := by
    simp [step_D_SA1_to_PW]
  have hF : step_F_SA3_to_Gate { params := {}, T := t, history := hist }
      { U_SA1_PW1 := [], U_SA1_PW2 := [], U_PW1_SA3 := [], U_PW2_SA3 := [],
        U_SA3_GA := [] } =
      { params := {}, T := t, history := hist } := by
    simp [step_F_SA3_to_Gate]
  simp only [simulation_step, hA, hB, hC, hE, hD, hF]
  norm_num [step_G_record_history, System.mk.injEq, HistoryRecord.mk.injEq]

/-- The state the repository's own termination-condition test builds:
a fresh system with `D_All = 100`, `D_pass = 50` and every zone counter
zero; `tests/test_data_structures.py` asserts `is_finished() == False`
on it. -/
def c4TestState : System := { params := {}, D_pass := 50, D_All := 100 }

end Metro

namespace Metro

theorem run_simulation_succ (fuel : ℕ) (s : System) (q_PA1 q_PA2 mt : ℚ) :
    run_simulation (fuel + 1) s q_PA1 q_PA2 mt =
      if ¬ s.is_finished ∧ s.T < mt then
        match simulation_step s q_PA1 q_PA2 with
        | Except.ok s' => run_simulation fuel s' q_PA1 q_PA2 mt
        | Except.error e => Except.error e
      else Except.ok s := rfl

theorem run_simulation_go (fuel : ℕ) (s s' : System) (q_PA1 q_PA2 mt : ℚ)
    (hfin : s.is_finished = false) (hT : s.T < mt)
    (hstep : simulation_step s q_PA1 q_PA2 = Except.ok s') :
    run_simulation (fuel + 1) s q_PA1 q_PA2 mt =
      run_simulation fuel s' q_PA1 q_PA2 mt := by
  rw [run_simulation_succ, if_pos ⟨by simp [hfin], hT⟩, hstep]

theorem run_simulation_stop_time (fuel : ℕ) (s : System) (q_PA1 q_PA2 mt : ℚ)
    (hT : ¬ s.T < mt) :
    run_simulation (fuel + 1) s q_PA1 q_PA2 mt = Except.ok s := by
  rw [run_simulation_succ, if_neg (fun h => hT h.2)]

theorem run_simulation_stop_finished (fuel : ℕ) (s : System)
    (q_PA1 q_PA2 mt : ℚ) (hfin : s.is_finished = true) :
    run_simulation (fuel + 1) s q_PA1 q_PA2 mt = Except.ok s := by
  rw [run_simulation_succ, if_neg (fun h => h.1 (by simp [hfin]))]

/-- All-zero history record at time `t`. -/
def zeroRec (t : ℚ) : HistoryRecord :=
  { T := t, D_SA1 := 0, D_PW1 := 0, D_PW2 := 0, D_SA3 := 0, D_pass := 0,
    K_PW2 := 0, K_SA3 := 0 }

/-- The empty default system after one tick. -/
def emptyS1 : System := { params := {}, T := 0.1, history := [zeroRec 0] }

/-- The empty default system after two ticks. -/
def emptyS2 : System :=
  { params := {}, T := 0.2, history := [zeroRec 0, zeroRec 0.1] }

theorem emptyStep_first : simulation_step emptySystem 0 0 = Except.ok emptyS1 := by
  have h := emptyStep 0 []
  rw [show emptySystem = { params := {}, T := 0, history := [] } from rfl, h]
  norm_num [emptyS1, zeroRec, System.mk.injEq, HistoryRecord.mk.injEq]

theorem emptyStep_second : simulation_step emptyS1 0 0 = Except.ok emptyS2 := by
  have h := emptyStep 0.1 [zeroRec 0]
  rw [show emptyS1 = { params := {}, T := 0.1, history := [zeroRec 0] } from rfl, h]
  norm_num [emptyS2, zeroRec, System.mk.injEq, HistoryRecord.mk.injEq]

/-- C4: the stop condition the driver actually uses is
`is_finished() = zones empty and D_pass > 0`, which never compares
`D_pass` with `D_All`.  On the fresh empty system every arrived passenger
has departed (`D_pass = D_All = 0`), yet `run_simulation` executes tick
after tick until the `max_time` ceiling (here two full ticks up to
`T = 0.2`), and on the repository's own termination test state
(zones empty, `D_pass = 50 < D_All = 100`) `is_finished()` returns `true`
although `tests/test_data_structures.py` asserts it must be `False`. -/
theorem c4_code_eval :
    emptySystem.D_pass = emptySystem.D_All ∧
    run_simulation 5 emptySystem 0 0 0.2 = Except.ok emptyS2 ∧
    emptyS2.T = 0.2 ∧ emptyS2.history.length = 2 ∧
    System.is_finished c4TestState = true := by
  refine ⟨rfl, ?_, rfl, rfl, by decide⟩
  have e1 : run_simulation 5 emptySystem 0 0 0.2 =
      run_simulation 4 emptyS1 0 0 0.2 :=
    run_simulation_go 4 emptySystem emptyS1 0 0 0.2 (by decide)
      (by norm_num [emptySystem]) emptyStep_first
  have e2 : run_simulation 4 emptyS1 0 0 0.2 =
      run_simulation 3 emptyS2 0 0 0.2 :=
    run_simulation_go 3 emptyS1 emptyS2 0 0 0.2 (by decide)
      (by norm_num [emptyS1]) emptyStep_second
  have e3 : run_simulation 3 emptyS2 0 0 0.2 = Except.ok emptyS2 :=
    run_simulation_stop_time 2 emptyS2 0 0 0.2 (by norm_num [emptyS2])
  rw [e1, e2, e3]

end Metro

namespace Metro

/-- C3: the security-lane admission rule is a single-server policy with a
hard occupancy ceiling of 200: it returns `0` exactly when the candidate
list is empty or `D_PW1` has reached 200, and `1` in every other case; in
the drain scenario with two eligible candidates, one tick moves exactly the
first candidate into the security lane while the second stays in the entry
zone with `additional_time` increased by `dt = 0.1`. -/
theorem c3_single_server_admission :
    (∀ (cands : List Passenger) (D_PW1 : ℤ) (prms : SystemParameters),
      check_PW1_admission cands D_PW1 prms =
        if cands = [] ∨ 200 ≤ D_PW1 then 0 else 1) ∧
    (simulation_step drainState 0 0).map (fun s => s.passengers) =
      Except.ok
        [{ pd0 with
            position := Position.PW1,
            t_enter_SA2 := 0,
            t_PW_basic := 15.5,
            t_SA2_add := 0 },
         { pd1 with t_SA1_add := 0.1 }] := by
  constructor
  · intro cands D_PW1 prms
    by_cases h1 : cands = []
    · simp [check_PW1_admission, h1]
    · have hlen : ¬ (cands.length = 0) := by
        simpa [List.length_eq_zero] using h1
      by_cases h2 : (200 : ℤ) ≤ D_PW1
      · simp [check_PW1_admission, hlen, h1, h2, ge_iff_le]
      · simp [check_PW1_admission, hlen, h1, h2, ge_iff_le]
  · rw [drainState_eval]
    simp [dFinal, dState2, pd0', pd1', Except.map]

end Metro

namespace Metro

/-- C6: with the density snapshot `K_PW2 = D_PW2 / A_PW2` (step B) and a
geometrically meaningful parameter set, the fast-lane admission returns 0
when the density has reached `K_PW2_max` or the remaining floor-capacity
`⌊A_PW2 (K_PW2_max - K_PW2)⌋` is non-positive, and otherwise the minimum of
the candidate count, the parallel-entry cap `⌊W_PW2 / W_B⌋` and that
remaining capacity — the most restrictive constraint wins. -/
theorem c6_fast_lane_triple_constraint (cands : List Passenger) (D_PW2 : ℤ)
    (prms : SystemParameters) (hA : 0 < prms.A_PW2)
    (hK : 0 ≤ prms.K_PW2_max) (hW : 0 ≤ prms.W_PW2 / prms.W_B) :
    check_PW2_admission cands D_PW2 ((D_PW2 : ℚ) / prms.A_PW2) prms =
      if (D_PW2 : ℚ) / prms.A_PW2 ≥ prms.K_PW2_max ∨
          ⌊prms.A_PW2 * (prms.K_PW2_max - (D_PW2 : ℚ) / prms.A_PW2)⌋ ≤ 0 then 0
      else
        min (min (cands.length : ℤ) ⌊prms.W_PW2 / prms.W_B⌋)
          ⌊prms.A_PW2 * (prms.K_PW2_max - (D_PW2 : ℚ) / prms.A_PW2)⌋ := by
  have hA0 : prms.A_PW2 ≠ 0 := ne_of_gt hA
  have key : prms.A_PW2 * (prms.K_PW2_max - (D_PW2 : ℚ) / prms.A_PW2) =
      prms.A_PW2 * prms.K_PW2_max - (D_PW2 : ℚ) := by
    field_simp
    ring
  have hfloor : ⌊prms.A_PW2 * (prms.K_PW2_max - (D_PW2 : ℚ) / prms.A_PW2)⌋ =
      ⌊prms.A_PW2 * prms.K_PW2_max⌋ - D_PW2 := by
    rw [key, Int.floor_sub_int]
  have hpy1 : pyInt (prms.A_PW2 * prms.K_PW2_max) =
      ⌊prms.A_PW2 * prms.K_PW2_max⌋ := by
    rw [pyInt, if_pos (mul_nonneg hA.le hK)]
  have hpy2 : pyInt (prms.W_PW2 / prms.W_B) = ⌊prms.W_PW2 / prms.W_B⌋ := by
    rw [pyInt, if_pos hW]
  rw [hfloor]
  simp only [check_PW2_admission, hpy1, hpy2]
  by_cases h1 : (D_PW2 : ℚ) / prms.A_PW2 ≥ prms.K_PW2_max
  · simp [h1]
  · by_cases h2 : ⌊prms.A_PW2 * prms.K_PW2_max⌋ - D_PW2 ≤ 0
    · simp [h1, h2]
    · simp [h1, h2]

/-- Six candidate passengers for the fast-lane admission witness. -/
def c6Cands : List Passenger := List.replicate 6 pd0

/-- Witness for C6 at the default parameters with ten passengers already in
the fast lane and six candidates. -/
theorem c6_fast_lane_triple_constraint_witness :
    0 < DEFAULT_PARAMS.A_PW2 ∧ 0 ≤ DEFAULT_PARAMS.K_PW2_max ∧
    0 ≤ DEFAULT_PARAMS.W_PW2 / DEFAULT_PARAMS.W_B ∧
    check_PW2_admission c6Cands 10 ((10 : ℚ) / DEFAULT_PARAMS.A_PW2)
        DEFAULT_PARAMS =
      if (10 : ℚ) / DEFAULT_PARAMS.A_PW2 ≥ DEFAULT_PARAMS.K_PW2_max ∨
          ⌊DEFAULT_PARAMS.A_PW2 *
            (DEFAULT_PARAMS.K_PW2_max - (10 : ℚ) / DEFAULT_PARAMS.A_PW2)⌋ ≤ 0
      then 0
      else
        min (min (c6Cands.length : ℤ)
            ⌊DEFAULT_PARAMS.W_PW2 / DEFAULT_PARAMS.W_B⌋)
          ⌊DEFAULT_PARAMS.A_PW2 *
            (DEFAULT_PARAMS.K_PW2_max - (10 : ℚ) / DEFAULT_PARAMS.A_PW2)⌋ :=
  ⟨by norm_num [DEFAULT_PARAMS],
   by norm_num [DEFAULT_PARAMS],
   by norm_num [DEFAULT_PARAMS, SystemParameters.W_PW2],
   c6_fast_lane_triple_constraint c6Cands 10 DEFAULT_PARAMS
     (by norm_num [DEFAULT_PARAMS])
     (by norm_num [DEFAULT_PARAMS])
     (by norm_num [DEFAULT_PARAMS, SystemParameters.W_PW2])⟩

end Metro

/-- Truncation toward zero and flooring agree once clipped at zero from
below. -/
theorem max_zero_pyInt (q : ℚ) : max 0 (pyInt q) = max 0 ⌊q⌋ := by
  rw [pyInt]
  split
  · rfl
  · rename_i h
    push_neg at h
    rw [max_eq_left (Int.ceil_le.mpr (by exact_mod_cast h.le)),
      max_eq_left (Int.floor_nonpos h.le)]

/-- C10: the full-physics fast-lane admission controller receives only the
occupancy and density, never the candidate list, so its result is the
width/density bound `min ⌊W_PW2 / W_B⌋ (max 0 ⌊A_PW2 (K_PW2_max - K)⌋)`
independent of how many passengers wait; at the default parameters with an
empty lane it returns 4, a strictly positive admission even when zero
candidates are waiting. -/
theorem c10_full_physics_admission_unbounded (D_PW2 : ℤ) (K : ℚ)
    (prms : FullPhysics.SystemParameters)
    (hW : 0 ≤ prms.W_PW2 / prms.W_B) :
    FullPhysics.check_PW2_admission D_PW2 K prms =
      min ⌊prms.W_PW2 / prms.W_B⌋
        (max 0 ⌊prms.A_PW2 * (prms.K_PW2_max - K)⌋) ∧
    FullPhysics.check_PW2_admission 0 0 {} = 4 ∧
    FullPhysics.check_PW1_admission 0 {} = 15 ∧
    (∀ free_gates : ℤ, FullPhysics.check_gate_admission free_gates =
      max 0 free_gates) := by
  refine ⟨?_, ?_, ?_, fun _ => rfl⟩
  · simp only [FullPhysics.check_PW2_admission]
    rw [max_zero_pyInt]
    unfold pyInt
    rw [if_pos hW]
  · have f1 : ⌊(408 / 91 : ℚ)⌋ = 4 := by
      apply Int.floor_eq_iff.mpr
      constructor <;> norm_num
    have f2 : ⌊(357 / 10 : ℚ)⌋ = 35 := by
      apply Int.floor_eq_iff.mpr
      constructor <;> norm_num
    norm_num [FullPhysics.check_PW2_admission, pyInt,
      FullPhysics.SystemParameters.W_PW2, f1, f2]
  · have f3 : ⌊(46 / 3 : ℚ)⌋ = 15 := by
      apply Int.floor_eq_iff.mpr
      constructor <;> norm_num
    norm_num [FullPhysics.check_PW1_admission, pyInt, f3]

/-- Witness for C10 at the default full-physics parameters. -/
theorem c10_full_physics_admission_unbounded_witness :
    0 ≤ ({} : FullPhysics.SystemParameters).W_PW2 /
        ({} : FullPhysics.SystemParameters).W_B ∧
    FullPhysics.check_PW2_admission 0 0 {} =
      min ⌊({} : FullPhysics.SystemParameters).W_PW2 /
            ({} : FullPhysics.SystemParameters).W_B⌋
        (max 0 ⌊({} : FullPhysics.SystemParameters).A_PW2 *
            (({} : FullPhysics.SystemParameters).K_PW2_max - 0)⌋) :=
  ⟨by norm_num [FullPhysics.SystemParameters.W_PW2],
   (c10_full_physics_admission_unbounded 0 0 {}
     (by norm_num [FullPhysics.SystemParameters.W_PW2])).1⟩

namespace Metro

/-- C5 counterexample: at the default parameters, both densities 0.35 and
0.46 lie strictly above the threshold `K_PW2_init = K_SA3_init = 0.31`,
yet the cubic speed polynomial still exceeds the free-flow value there, so
the traversal time at the larger density 0.46 is strictly smaller than at
0.35 — for both the fast lane and the SA3 component: density-speed
monotonicity fails just above the threshold. -/
theorem c5_counterexample :
    DEFAULT_PARAMS.K_PW2_init < 0.35 ∧ (0.35 : ℚ) ≤ 0.46 ∧
    compute_t_PW2_basic 0.46 DEFAULT_PARAMS <
      compute_t_PW2_basic 0.35 DEFAULT_PARAMS ∧
    DEFAULT_PARAMS.K_SA3_init < 0.35 ∧
    compute_t_SA3_basic pd0 0.46 DEFAULT_PARAMS <
      compute_t_SA3_basic pd0 0.35 DEFAULT_PARAMS := by
  norm_num [compute_t_PW2_basic, compute_t_SA3_basic,
    SystemParameters.v_PW2, SystemParameters.v_SA3, DEFAULT_PARAMS, pd0,
    max_def]

/-- The cubic branch of the speed-density relation is non-increasing on
the offset band `[0.15, 3.06]`. -/
theorem cubic_branch_antitone (x1 x2 : ℚ) (h1 : 0.15 ≤ x1) (h12 : x1 ≤ x2)
    (h2 : x2 ≤ 3.06) :
    0.11 * x2 ^ 3 - 0.53 * x2 ^ 2 + 0.15 * x2 + 1.61 ≤
      0.11 * x1 ^ 3 - 0.53 * x1 ^ 2 + 0.15 * x1 + 1.61 := by
  have hx1l : (0 : ℚ) ≤ x1 - 0.15 := by linarith
  have hx2l : (0 : ℚ) ≤ x2 - 0.15 := by linarith
  have hx1u : (0 : ℚ) ≤ 3.06 - x1 := by linarith
  have hx2u : (0 : ℚ) ≤ 3.06 - x2 := by linarith
  have hd : (0 : ℚ) ≤ x2 - x1 := by linarith
  nlinarith [mul_nonneg hd (mul_nonneg hx1l hx1u),
    mul_nonneg hd (mul_nonneg hx2l hx2u),
    mul_nonneg hd (mul_nonneg hx1l hx2u),
    mul_nonneg hd (mul_nonneg hx2l hx1u),
    mul_nonneg hx1l hx1u, mul_nonneg hx2l hx2u,
    mul_nonneg hx1l hx2u, mul_nonneg hx2l hx1u]

theorem v_PW2_antitone_on_band (K1 K2 : ℚ) (h1 : 0.46 ≤ K1) (h12 : K1 ≤ K2)
    (h2 : K2 ≤ 3.37) :
    DEFAULT_PARAMS.v_PW2 K2 ≤ DEFAULT_PARAMS.v_PW2 K1 := by
  have e1 : ¬ (K1 ≤ DEFAULT_PARAMS.K_PW2_init) := by
    norm_num [DEFAULT_PARAMS]
    linarith
  have e2 : ¬ (K2 ≤ DEFAULT_PARAMS.K_PW2_init) := by
    norm_num [DEFAULT_PARAMS]
    linarith
  rw [SystemParameters.v_PW2, SystemParameters.v_PW2, if_neg e1, if_neg e2]
  refine max_le_max ?_ le_rfl
  have hK : DEFAULT_PARAMS.K_PW2_init = 0.31 := rfl
  rw [hK]
  exact cubic_branch_antitone (K1 - 0.31) (K2 - 0.31) (by linarith)
    (by linarith) (by linarith)

theorem v_SA3_antitone_on_band (K1 K2 : ℚ) (h1 : 0.46 ≤ K1) (h12 : K1 ≤ K2)
    (h2 : K2 ≤ 3.37) :
    DEFAULT_PARAMS.v_SA3 K2 ≤ DEFAULT_PARAMS.v_SA3 K1 := by
  have e1 : ¬ (K1 ≤ DEFAULT_PARAMS.K_SA3_init) := by
    norm_num [DEFAULT_PARAMS]
    linarith
  have e2 : ¬ (K2 ≤ DEFAULT_PARAMS.K_SA3_init) := by
    norm_num [DEFAULT_PARAMS]
    linarith
  rw [SystemParameters.v_SA3, SystemParameters.v_SA3, if_neg e1, if_neg e2]
  refine max_le_max ?_ le_rfl
  have hK : DEFAULT_PARAMS.K_SA3_init = 0.31 := rfl
  rw [hK]
  exact cubic_branch_antitone (K1 - 0.31) (K2 - 0.31) (by linarith)
    (by linarith) (by linarith)

theorem v_PW2_pos (prms : SystemParameters) (K : ℚ)
    (hfree : 0 < prms.v_PW2_init) : 0 < prms.v_PW2 K := by
  rw [SystemParameters.v_PW2]
  split
  · exact hfree
  · exact lt_of_lt_of_le (by norm_num) (le_max_right _ _)

theorem v_SA3_pos (prms : SystemParameters) (K : ℚ)
    (hfree : 0 < prms.v_SA3_init) : 0 < prms.v_SA3 K := by
  rw [SystemParameters.v_SA3]
  split
  · exact hfree
  · exact lt_of_lt_of_le (by norm_num) (le_max_right _ _)

/-- C5 (amended): density-speed monotonicity holds on the band where the
cubic branch is non-increasing — at the default parameters, for densities
`0.46 ≤ K1 ≤ K2 ≤ 3.37` (offsets in `[0.15, 3.06]` above the threshold
0.31) the fast-lane traversal time and the SA3 traversal time are
non-decreasing in the density; immediately above the threshold the cubic
exceeds the free-flow speed, so monotonicity fails there
(see the counterexample). -/
theorem c5_traversal_time_monotone_on_band (K1 K2 : ℚ) (h1 : 0.46 ≤ K1)
    (h12 : K1 ≤ K2) (h2 : K2 ≤ 3.37) :
    compute_t_PW2_basic K1 DEFAULT_PARAMS ≤
      compute_t_PW2_basic K2 DEFAULT_PARAMS ∧
    (∀ p : Passenger, compute_t_SA3_basic p K1 DEFAULT_PARAMS ≤
      compute_t_SA3_basic p K2 DEFAULT_PARAMS) := by
  have hv1 : 0 < DEFAULT_PARAMS.v_PW2 K2 := v_PW2_pos _ _ (by norm_num [DEFAULT_PARAMS])
  have hv2 : 0 < DEFAULT_PARAMS.v_SA3 K2 := v_SA3_pos _ _ (by norm_num [DEFAULT_PARAMS])
  have hm1 := v_PW2_antitone_on_band K1 K2 h1 h12 h2
  have hm2 := v_SA3_antitone_on_band K1 K2 h1 h12 h2
  constructor
  · rw [compute_t_PW2_basic, compute_t_PW2_basic]
    have hL : (0 : ℚ) ≤ DEFAULT_PARAMS.L_PW2 := by norm_num [DEFAULT_PARAMS]
    exact div_le_div_of_nonneg_left hL hv1 hm1
  · intro p
    rw [compute_t_SA3_basic, compute_t_SA3_basic]
    cases hp : p.ptype
    · simp only [hp]
      have hL : (0 : ℚ) ≤ DEFAULT_PARAMS.L_PW1_GA := by norm_num [DEFAULT_PARAMS]
      exact add_le_add_right (div_le_div_of_nonneg_left hL hv2 hm2) _
    · simp only [hp]
      have hL : (0 : ℚ) ≤ DEFAULT_PARAMS.L_PW2_GA := by norm_num [DEFAULT_PARAMS]
      exact add_le_add_right (div_le_div_of_nonneg_left hL hv2 hm2) _

/-- Witness for the amended C5 at densities 0.5 and 1. -/
theorem c5_traversal_time_monotone_on_band_witness :
    (0.46 : ℚ) ≤ 0.5 ∧ (0.5 : ℚ) ≤ 1 ∧ (1 : ℚ) ≤ 3.37 ∧
    compute_t_PW2_basic 0.5 DEFAULT_PARAMS ≤
      compute_t_PW2_basic 1 DEFAULT_PARAMS :=
  ⟨by norm_num, by norm_num, by norm_num,
   (c5_traversal_time_monotone_on_band 0.5 1 (by norm_num) (by norm_num)
     (by norm_num)).1⟩

end Metro

namespace Metro

/-- Modelled from the spec: a tick that executes the transfers in the order
the specification states in section 4.3 step 4 — `PreGateArea → Gate`
(step F) first, then `{SecurityLane, FastLane} → PreGateArea` (step E),
then `Entry → {SecurityLane, FastLane}` (step D) — with every other
sub-step as in `simulation_step`. -/
def simulation_step_spec_order (system : System) (q_PA1 q_PA2 : ℚ) :
    Except String System :=
  let sA := step_A_arrivals system q_PA1 q_PA2
  let Ks := step_B_update_densities sA
  let candidates := step_C_construct_candidates sA
  let sF := step_F_SA3_to_Gate sA candidates
  let sE := step_E_PW_to_SA3 sF candidates Ks.2
  let sD := step_D_SA1_to_PW sE candidates Ks.1
  let sG := step_G_record_history sD Ks.1 Ks.2
  let total := sG.D_SA1 + sG.D_PW1 + sG.D_PW2 + sG.D_SA3 + sG.D_pass
  if total ≠ sG.D_All then
    Except.error "conservation check failed"
  else
    Except.ok { sG with T := sG.T + sG.params.dt }

/-- One passenger ready to leave the security lane. -/
def pw1Pax : Passenger := { index := 0, ptype := PassengerType.PA1, position := Position.PW1 }

/-- One passenger ready to pass the gate. -/
def sa3Pax : Passenger := { index := 1, ptype := PassengerType.PA1, position := Position.SA3 }

/-- Order-sensitive state: the pre-gate area holds 103 passengers — one
below its floor-capacity 103.95, so `⌊103.95 - 103⌋ = 0` admits nobody —
while one security-lane passenger wants to enter it and one pre-gate
passenger is ready to leave through the gate. -/
def c2State : System :=
  { params := {}, passengers := [pw1Pax, sa3Pax], next_passenger_id := 2,
    D_PW1 := 1, D_SA3 := 103, D_All := 104 }

/-- Candidate sets of `c2State`. -/
def cC2 : Candidates :=
  { U_SA1_PW1 := [], U_SA1_PW2 := [], U_PW1_SA3 := [(0, pw1Pax)],
    U_PW2_SA3 := [], U_SA3_GA := [(1, sa3Pax)] }

/-- The security-lane passenger after a blocked tick. -/
def pw1PaxRej : Passenger := { pw1Pax with t_SA2_add := 0.1 }

/-- The gate passenger after passing. -/
def sa3PaxF : Passenger :=
  { sa3Pax with position := Position.PASSED, t_exit_system := 0 }

/-- The security-lane passenger after entering the pre-gate area under the
spec-stated order. -/
def pw1PaxAdm : Passenger :=
  { pw1Pax with
      position := Position.SA3,
      t_enter_SA3 := 0,
      t_SA3_basic := compute_t_SA3_basic pw1Pax (1030 / 297) DEFAULT_PARAMS,
      t_SA3_add := 0 }

/-- Result of the code-order tick on `c2State`: the pre-gate area is still
full when step E runs, so the security-lane passenger stays put. -/
def c2Final : System :=
  { c2State with
      passengers := [pw1PaxRej, sa3PaxF],
      D_SA3 := 102,
      D_pass := 1,
      T := 0.1,
      history := [{ T := 0, D_SA1 := 0, D_PW1 := 1, D_PW2 := 0,
                    D_SA3 := 102, D_pass := 1, K_PW2 := 0,
                    K_SA3 := 1030 / 297 }] }

/-- Result of the spec-order tick on `c2State`: the gate transfer frees a
pre-gate slot first, so the security-lane passenger advances. -/
def c2FinalSpec : System :=
  { c2State with
      passengers := [pw1PaxAdm, sa3PaxF],
      D_PW1 := 0,
      D_SA3 := 103,
      D_pass := 1,
      T := 0.1,
      history := [{ T := 0, D_SA1 := 0, D_PW1 := 0, D_PW2 := 0,
                    D_SA3 := 103, D_pass := 1, K_PW2 := 0,
                    K_SA3 := 1030 / 297 }] }

theorem c2_eval_code : simulation_step c2State 0 0 = Except.ok c2Final := by
  have fl0 : ⌊(19 / 20 : ℚ)⌋ = 0 := by
    apply Int.floor_eq_iff.mpr
    constructor <;> norm_num
  have hA : step_A_arrivals c2State 0 0 = c2State := by
    simp [step_A_arrivals, arrivalTypes, pyInt, c2State]
  have hB : step_B_update_densities c2State = ((0 : ℚ), (1030 / 297 : ℚ)) := by
    norm_num [step_B_update_densities, c2State]
  have hC : step_C_construct_candidates c2State = cC2 := by
    norm_num [step_C_construct_candidates, c2State, pw1Pax, sa3Pax, cC2,
      List.enum, List.enumFrom, List.filter, sortByIndex, byIndex,
      List.insertionSort, List.orderedInsert, Candidates.mk.injEq]
  have hE : step_E_PW_to_SA3 c2State cC2 (1030 / 297) =
      { c2State with passengers := [pw1PaxRej, sa3Pax] } := by
    norm_num [step_E_PW_to_SA3, cC2, sortByIndex, List.insertionSort,
      List.orderedInsert, check_SA3_admission, pyInt, pySliceIdx, modifyAt,
      getLive, fl0, c2State, pw1Pax, sa3Pax, pw1PaxRej, admFnSA3, rejFnSA2,
      System.mk.injEq, Passenger.mk.injEq]
  have hD : step_D_SA1_to_PW
      { c2State with passengers := [pw1PaxRej, sa3Pax] } cC2 0 =
      { c2State with passengers := [pw1PaxRej, sa3Pax] } := by
    simp [step_D_SA1_to_PW, cC2]
  have hF : step_F_SA3_to_Gate
      { c2State with passengers := [pw1PaxRej, sa3Pax] } cC2 =
      { c2State with
          passengers := [pw1PaxRej, sa3PaxF],
          D_SA3 := 102,
          D_pass := 1 } := by
    norm_num [step_F_SA3_to_Gate, cC2, check_gate_admission, pySliceIdx,
      modifyAt, c2State, sa3Pax, sa3PaxF, pw1PaxRej, admFnGate, rejFnSA3,
      System.mk.injEq, Passenger.mk.injEq]
  simp only [simulation_step, hA, hB, hC, hE, hD, hF]
  norm_num [step_G_record_history, c2State, c2Final, pw1PaxRej, sa3PaxF,
    System.mk.injEq, HistoryRecord.mk.injEq]

theorem c2_eval_spec :
    simulation_step_spec_order c2State 0 0 = Except.ok c2FinalSpec := by
  have fl1 : ⌊(39 / 20 : ℚ)⌋ = 1 := by
    apply Int.floor_eq_iff.mpr
    constructor <;> norm_num
  have hA : step_A_arrivals c2State 0 0 = c2State := by
    simp [step_A_arrivals, arrivalTypes, pyInt, c2State]
  have hB : step_B_update_densities c2State = ((0 : ℚ), (1030 / 297 : ℚ)) := by
    norm_num [step_B_update_densities, c2State]
  have hC : step_C_construct_candidates c2State = cC2 := by
    norm_num [step_C_construct_candidates, c2State, pw1Pax, sa3Pax, cC2,
      List.enum, List.enumFrom, List.filter, sortByIndex, byIndex,
      List.insertionSort, List.orderedInsert, Candidates.mk.injEq]
  have hF : step_F_SA3_to_Gate c2State cC2 =
      { c2State with
          passengers := [pw1Pax, sa3PaxF],
          D_SA3 := 102,
          D_pass := 1 } := by
    norm_num [step_F_SA3_to_Gate, cC2, check_gate_admission, pySliceIdx,
      modifyAt, c2State, sa3Pax, sa3PaxF, pw1Pax, admFnGate, rejFnSA3,
      System.mk.injEq, Passenger.mk.injEq]
  have hE : step_E_PW_to_SA3
      { c2State with
          passengers := [pw1Pax, sa3PaxF],
          D_SA3 := 102,
          D_pass := 1 } cC2 (1030 / 297) =
      { c2State with
          passengers := [pw1PaxAdm, sa3PaxF],
          D_PW1 := 0,
          D_SA3 := 103,
          D_pass := 1 } := by
    norm_num [step_E_PW_to_SA3, cC2, sortByIndex, List.insertionSort,
      List.orderedInsert, check_SA3_admission, pyInt, pySliceIdx, modifyAt,
      getLive, fl1, c2State, pw1Pax, sa3Pax, sa3PaxF, pw1PaxAdm, admFnSA3,
      rejFnSA2, DEFAULT_PARAMS, System.mk.injEq, Passenger.mk.injEq]
  have hD : step_D_SA1_to_PW
      { c2State with
          passengers := [pw1PaxAdm, sa3PaxF],
          D_PW1 := 0,
          D_SA3 := 103,
          D_pass := 1 } cC2 0 =
      { c2State with
          passengers := [pw1PaxAdm, sa3PaxF],
          D_PW1 := 0,
          D_SA3 := 103,
          D_pass := 1 } := by
    simp [step_D_SA1_to_PW, cC2]
  simp only [simulation_step_spec_order, hA, hB, hC, hF, hE, hD]
  norm_num [step_G_record_history, c2State, c2FinalSpec, pw1PaxAdm, sa3PaxF,
    System.mk.injEq, HistoryRecord.mk.injEq]

end Metro

namespace Metro

/-- C2 counterexample: the claimed order (`PreGateArea → Gate` first) is not
what the code executes.  On `c2State` the code-order tick leaves the
security-lane passenger in `PW1` — step E ran before step F freed a
pre-gate slot — while a tick in the spec-stated order moves it into `SA3`;
the very same tick on the very same state produces different results, so
`simulation_step` does not run `PreGateArea → Gate` first. -/
theorem c2_counterexample :
    (simulation_step c2State 0 0).map
        (fun s => s.passengers.map Passenger.position) =
      Except.ok [Position.PW1, Position.PASSED] ∧
    (simulation_step_spec_order c2State 0 0).map
        (fun s => s.passengers.map Passenger.position) =
      Except.ok [Position.SA3, Position.PASSED] ∧
    simulation_step c2State 0 0 ≠ simulation_step_spec_order c2State 0 0 := by
  refine ⟨?_, ?_, ?_⟩
  · rw [c2_eval_code]
    simp [c2Final, c2State, pw1PaxRej, sa3PaxF, pw1Pax, sa3Pax, Except.map]
  · rw [c2_eval_spec]
    simp [c2FinalSpec, c2State, pw1PaxAdm, sa3PaxF, pw1Pax, sa3Pax,
      Except.map]
  · intro hEq
    rw [c2_eval_code, c2_eval_spec] at hEq
    simp [c2Final, c2FinalSpec, c2State, pw1PaxRej, pw1PaxAdm, sa3PaxF,
      pw1Pax, sa3Pax, System.mk.injEq, Passenger.mk.injEq] at hEq

/-- C2 (amended): within every tick the transfer phases run in the fixed
order `{SecurityLane, FastLane} → PreGateArea` (step E), then
`Entry → {SecurityLane, FastLane}` (step D), then `PreGateArea → Gate`
(step F): the transfer that frees lane capacity does run before the
transfer that consumes it, but the gate transfer runs last, not first, so
pre-gate slots it frees only become visible in the next tick; the spec's
stated order (`PreGateArea → Gate` first) computes a different function. -/
theorem c2_transfer_order_E_D_F :
    (∀ (s : System) (q_PA1 q_PA2 : ℚ),
      simulation_step s q_PA1 q_PA2 =
        (let sA := step_A_arrivals s q_PA1 q_PA2
         let Ks := step_B_update_densities sA
         let candidates := step_C_construct_candidates sA
         let sE := step_E_PW_to_SA3 sA candidates Ks.2
         let sD := step_D_SA1_to_PW sE candidates Ks.1
         let sF := step_F_SA3_to_Gate sD candidates
         let sG := step_G_record_history sF Ks.1 Ks.2
         if sG.D_SA1 + sG.D_PW1 + sG.D_PW2 + sG.D_SA3 + sG.D_pass ≠
             sG.D_All then
           Except.error "conservation check failed"
         else Except.ok { sG with T := sG.T + sG.params.dt })) ∧
    ¬ (∀ (s : System) (q_PA1 q_PA2 : ℚ),
      simulation_step s q_PA1 q_PA2 =
        simulation_step_spec_order s q_PA1 q_PA2) := by
  refine ⟨fun s q_PA1 q_PA2 => rfl, fun hall => ?_⟩
  have h := hall c2State 0 0
  rw [c2_eval_code, c2_eval_spec] at h
  simp [c2Final, c2FinalSpec, c2State, pw1PaxRej, pw1PaxAdm, sa3PaxF,
    pw1Pax, sa3Pax, System.mk.injEq, Passenger.mk.injEq] at h

end Metro

namespace Metro

/-- The passengers the arrivals loop appends, with consecutive ids starting
at `base`. -/
def newsFrom (base : ℤ) (T : ℚ) (prms : SystemParameters) :
    List PassengerType → List Passenger
  | [] => []
  | pt :: rest => mkArrival base pt T prms :: newsFrom (base + 1) T prms rest

theorem newsFrom_length (T : ℚ) (prms : SystemParameters) :
    ∀ (l : List PassengerType) (base : ℤ),
      (newsFrom base T prms l).length = l.length
  | [], _ => rfl
  | _ :: rest, base => by
    simpa [newsFrom] using newsFrom_length T prms rest (base + 1)

theorem newsFrom_map_ptype (T : ℚ) (prms : SystemParameters) :
    ∀ (l : List PassengerType) (base : ℤ),
      (newsFrom base T prms l).map Passenger.ptype = l
  | [], _ => rfl
  | pt :: rest, base => by
    simpa [newsFrom, mkArrival] using newsFrom_map_ptype T prms rest (base + 1)

theorem newsFrom_getElem? (T : ℚ) (prms : SystemParameters) :
    ∀ (l : List PassengerType) (base : ℤ) (j : ℕ),
      (newsFrom base T prms l)[j]? =
        l[j]?.map fun pt => mkArrival (base + j) pt T prms
  | [], _, j => by simp [newsFrom]
  | pt :: rest, base, 0 => by simp [newsFrom]
  | pt :: rest, base, j + 1 => by
    have h := newsFrom_getElem? T prms rest (base + 1) j
    simp only [newsFrom, List.getElem?_cons_succ, h]
    have : base + 1 + (j : ℤ) = base + ((j : ℕ) + 1 : ℕ) := by push_cast; ring
    rw [this]

theorem arrival_foldl_eq :
    ∀ (l : List PassengerType) (st : System),
      l.foldl arrival_append st =
        { st with
            passengers := st.passengers ++
              newsFrom st.next_passenger_id st.T st.params l,
            next_passenger_id := st.next_passenger_id + l.length,
            D_SA1 := st.D_SA1 + l.length,
            D_All := st.D_All + l.length }
  | [], st => by simp [newsFrom]
  | pt :: rest, st => by
    rw [List.foldl_cons, arrival_foldl_eq rest]
    simp only [arrival_append, newsFrom]
    simp [System.mk.injEq, List.append_assoc]
    refine ⟨by ring, by ring, by ring⟩

end Metro

namespace Metro

/-- The block of passenger types the numbering loop appends at iteration
`i`. -/
def arrivalBlock (n_PA1 n_PA2 : ℤ) (i : ℕ) : List PassengerType :=
  (if (i : ℤ) < n_PA1 then [PassengerType.PA1] else []) ++
    (if (i : ℤ) < n_PA2 then [PassengerType.PA2] else [])

theorem foldl_double_append {α β : Type} (f g : β → List α) :
    ∀ (l : List β) (init : List α),
      l.foldl (fun acc i => (acc ++ f i) ++ g i) init =
        init ++ l.flatMap (fun i => f i ++ g i)
  | [], init => by simp
  | b :: t, init => by
    rw [List.foldl_cons, foldl_double_append f g t]
    simp [List.append_assoc]

theorem arrivalTypes_eq_flatMap (n_PA1 n_PA2 : ℤ) :
    arrivalTypes n_PA1 n_PA2 =
      (List.range (max n_PA1 n_PA2).toNat).flatMap (arrivalBlock n_PA1 n_PA2) := by
  unfold arrivalTypes arrivalBlock
  rw [foldl_double_append
      (fun i : ℕ => if (i : ℤ) < n_PA1 then [PassengerType.PA1] else [])
      (fun i : ℕ => if (i : ℤ) < n_PA2 then [PassengerType.PA2] else []),
    List.nil_append]

theorem count_PA1_arrivalTypes (n_PA1 n_PA2 : ℤ) :
    (arrivalTypes n_PA1 n_PA2).count PassengerType.PA1 = n_PA1.toNat := by
  rw [arrivalTypes_eq_flatMap]
  have key : ∀ m : ℕ,
      ((List.range m).flatMap (arrivalBlock n_PA1 n_PA2)).count
        PassengerType.PA1 = min m n_PA1.toNat := by
    intro m
    induction m with
    | zero => simp
    | succ k ih =>
      rw [List.range_succ, List.flatMap_append, List.count_append, ih]
      by_cases h : (k : ℤ) < n_PA1 <;>
        by_cases h' : (k : ℤ) < n_PA2 <;>
          simp [arrivalBlock, h, h', List.count_append, List.count_cons,
            List.count_nil] <;>
          omega
  rw [key]
  omega

theorem count_PA2_arrivalTypes (n_PA1 n_PA2 : ℤ) :
    (arrivalTypes n_PA1 n_PA2).count PassengerType.PA2 = n_PA2.toNat := by
  rw [arrivalTypes_eq_flatMap]
  have key : ∀ m : ℕ,
      ((List.range m).flatMap (arrivalBlock n_PA1 n_PA2)).count
        PassengerType.PA2 = min m n_PA2.toNat := by
    intro m
    induction m with
    | zero => simp
    | succ k ih =>
      rw [List.range_succ, List.flatMap_append, List.count_append, ih]
      by_cases h : (k : ℤ) < n_PA2 <;>
        by_cases h' : (k : ℤ) < n_PA1 <;>
          simp [arrivalBlock, h, h', List.count_append, List.count_cons,
            List.count_nil] <;>
          omega
  rw [key]
  omega

theorem arrivalTypes_cons (n_PA1 n_PA2 : ℤ) (h1 : 0 < n_PA1) (h2 : 0 < n_PA2) :
    arrivalTypes n_PA1 n_PA2 =
      PassengerType.PA1 :: PassengerType.PA2 ::
        arrivalTypes (n_PA1 - 1) (n_PA2 - 1) := by
  rw [arrivalTypes_eq_flatMap, arrivalTypes_eq_flatMap]
  have hm : (max n_PA1 n_PA2).toNat = (max (n_PA1 - 1) (n_PA2 - 1)).toNat + 1 := by
    omega
  rw [hm, show (max (n_PA1 - 1) (n_PA2 - 1)).toNat + 1 =
    ((max (n_PA1 - 1) (n_PA2 - 1)).toNat).succ from rfl, List.range_succ_eq_map]
  rw [List.flatMap_cons, List.flatMap_map]
  have hblock : arrivalBlock n_PA1 n_PA2 0 =
      [PassengerType.PA1, PassengerType.PA2] := by
    simp [arrivalBlock, h1, h2]
  rw [hblock]
  have hfun : (fun a : ℕ => arrivalBlock n_PA1 n_PA2 a.succ) =
      arrivalBlock (n_PA1 - 1) (n_PA2 - 1) := by
    funext i
    simp only [arrivalBlock]
    have e1 : ((Nat.succ i : ℕ) : ℤ) < n_PA1 ↔ (i : ℤ) < n_PA1 - 1 := by omega
    have e2 : ((Nat.succ i : ℕ) : ℤ) < n_PA2 ↔ (i : ℤ) < n_PA2 - 1 := by omega
    rw [if_congr e1 rfl rfl, if_congr e2 rfl rfl]
  rw [hfun]
  rfl

theorem arrivalTypes_alternates :
    ∀ (k : ℕ) (n_PA1 n_PA2 : ℤ), (k : ℤ) < n_PA1 → (k : ℤ) < n_PA2 →
      (arrivalTypes n_PA1 n_PA2)[2 * k]? = some PassengerType.PA1 ∧
      (arrivalTypes n_PA1 n_PA2)[2 * k + 1]? = some PassengerType.PA2
  | 0, n_PA1, n_PA2, h1, h2 => by
    rw [arrivalTypes_cons n_PA1 n_PA2 (by omega) (by omega)]
    simp
  | j + 1, n_PA1, n_PA2, h1, h2 => by
    rw [arrivalTypes_cons n_PA1 n_PA2 (by omega) (by omega)]
    have ih := arrivalTypes_alternates j (n_PA1 - 1) (n_PA2 - 1)
      (by omega) (by omega)
    have e1 : 2 * (j + 1) = (2 * j + 1) + 1 := by ring
    rw [e1]
    simpa using ih

end Metro

namespace Metro

set_option maxRecDepth 8000 in
/-- C9: with nonnegative rates (and a nonnegative tick length), one
arrivals sub-step adds `rate * dt` to each fractional accumulator, emits
exactly the integer part `⌊acc⌋` of each accumulator as new passengers of
that type, subtracts it back out so each accumulator ends as the
fractional part in `[0, 1)`, appends the newcomers with consecutive ids
starting at `next_passenger_id` in the alternating emission order (`PA1`
then `PA2` for every index where both types still emit), and initialises
every newcomer in `SA1` with `t_enter_SA1 = T` and
`t_SA1_basic = compute_t_SA1_basic` for its type. -/
theorem c9_arrivals_characterization (s : System) (q_PA1 q_PA2 : ℚ)
    (hq1 : 0 ≤ q_PA1) (hq2 : 0 ≤ q_PA2) (hdt : 0 ≤ s.params.dt)
    (ha1 : 0 ≤ s.arrival_acc_PA1) (ha2 : 0 ≤ s.arrival_acc_PA2) :
    step_A_arrivals s q_PA1 q_PA2 =
      { s with
          arrival_acc_PA1 :=
            Int.fract (s.arrival_acc_PA1 + q_PA1 * s.params.dt),
          arrival_acc_PA2 :=
            Int.fract (s.arrival_acc_PA2 + q_PA2 * s.params.dt),
          passengers := s.passengers ++
            newsFrom s.next_passenger_id s.T s.params
              (arrivalTypes ⌊s.arrival_acc_PA1 + q_PA1 * s.params.dt⌋
                ⌊s.arrival_acc_PA2 + q_PA2 * s.params.dt⌋),
          next_passenger_id := s.next_passenger_id +
            ((arrivalTypes ⌊s.arrival_acc_PA1 + q_PA1 * s.params.dt⌋
              ⌊s.arrival_acc_PA2 + q_PA2 * s.params.dt⌋).length : ℤ),
          D_SA1 := s.D_SA1 +
            ((arrivalTypes ⌊s.arrival_acc_PA1 + q_PA1 * s.params.dt⌋
              ⌊s.arrival_acc_PA2 + q_PA2 * s.params.dt⌋).length : ℤ),
          D_All := s.D_All +
            ((arrivalTypes ⌊s.arrival_acc_PA1 + q_PA1 * s.params.dt⌋
              ⌊s.arrival_acc_PA2 + q_PA2 * s.params.dt⌋).length : ℤ) } ∧
    (0 ≤ Int.fract (s.arrival_acc_PA1 + q_PA1 * s.params.dt) ∧
      Int.fract (s.arrival_acc_PA1 + q_PA1 * s.params.dt) < 1 ∧
      0 ≤ Int.fract (s.arrival_acc_PA2 + q_PA2 * s.params.dt) ∧
      Int.fract (s.arrival_acc_PA2 + q_PA2 * s.params.dt) < 1) ∧
    ((arrivalTypes ⌊s.arrival_acc_PA1 + q_PA1 * s.params.dt⌋
        ⌊s.arrival_acc_PA2 + q_PA2 * s.params.dt⌋).count PassengerType.PA1 =
      ⌊s.arrival_acc_PA1 + q_PA1 * s.params.dt⌋.toNat ∧
      (arrivalTypes ⌊s.arrival_acc_PA1 + q_PA1 * s.params.dt⌋
        ⌊s.arrival_acc_PA2 + q_PA2 * s.params.dt⌋).count PassengerType.PA2 =
      ⌊s.arrival_acc_PA2 + q_PA2 * s.params.dt⌋.toNat) ∧
    (∀ j : ℕ,
      (newsFrom s.next_passenger_id s.T s.params
        (arrivalTypes ⌊s.arrival_acc_PA1 + q_PA1 * s.params.dt⌋
          ⌊s.arrival_acc_PA2 + q_PA2 * s.params.dt⌋))[j]? =
      ((arrivalTypes ⌊s.arrival_acc_PA1 + q_PA1 * s.params.dt⌋
        ⌊s.arrival_acc_PA2 + q_PA2 * s.params.dt⌋)[j]?).map
        fun pt => mkArrival (s.next_passenger_id + j) pt s.T s.params) ∧
    (∀ (idx : ℤ) (pt : PassengerType),
      (mkArrival idx pt s.T s.params).position = Position.SA1 ∧
      (mkArrival idx pt s.T s.params).index = idx ∧
      (mkArrival idx pt s.T s.params).t_enter_SA1 = s.T ∧
      (mkArrival idx pt s.T s.params).t_SA1_basic = compute_t_SA1_basic
        { index := idx, ptype := pt, position := Position.SA1 } s.params ∧
      (mkArrival idx pt s.T s.params).t_SA1_add = 0) ∧
    (∀ k : ℕ, (k : ℤ) < ⌊s.arrival_acc_PA1 + q_PA1 * s.params.dt⌋ →
      (k : ℤ) < ⌊s.arrival_acc_PA2 + q_PA2 * s.params.dt⌋ →
      (arrivalTypes ⌊s.arrival_acc_PA1 + q_PA1 * s.params.dt⌋
        ⌊s.arrival_acc_PA2 + q_PA2 * s.params.dt⌋)[2 * k]? =
        some PassengerType.PA1 ∧
      (arrivalTypes ⌊s.arrival_acc_PA1 + q_PA1 * s.params.dt⌋
        ⌊s.arrival_acc_PA2 + q_PA2 * s.params.dt⌋)[2 * k + 1]? =
        some PassengerType.PA2) := by
  have h1 : 0 ≤ s.arrival_acc_PA1 + q_PA1 * s.params.dt :=
    add_nonneg ha1 (mul_nonneg hq1 hdt)
  have h2 : 0 ≤ s.arrival_acc_PA2 + q_PA2 * s.params.dt :=
    add_nonneg ha2 (mul_nonneg hq2 hdt)
  have hp1 : pyInt (s.arrival_acc_PA1 + q_PA1 * s.params.dt) =
      ⌊s.arrival_acc_PA1 + q_PA1 * s.params.dt⌋ := by
    unfold pyInt
    rw [if_pos h1]
  have hp2 : pyInt (s.arrival_acc_PA2 + q_PA2 * s.params.dt) =
      ⌊s.arrival_acc_PA2 + q_PA2 * s.params.dt⌋ := by
    unfold pyInt
    rw [if_pos h2]
  refine ⟨?_,
    ⟨Int.fract_nonneg _, Int.fract_lt_one _,
     Int.fract_nonneg _, Int.fract_lt_one _⟩,
    ⟨count_PA1_arrivalTypes _ _, count_PA2_arrivalTypes _ _⟩,
    fun j => newsFrom_getElem? _ _ _ _ j,
    fun idx pt => ⟨rfl, rfl, rfl, rfl, rfl⟩,
    fun k hk1 hk2 => arrivalTypes_alternates k _ _ hk1 hk2⟩
  simp only [step_A_arrivals, hp1, hp2]
  rw [arrival_foldl_eq]
  simp only [Int.fract]

end Metro

namespace Metro

/-- Fresh default system with fractional arrival accumulators 0.5 and 0.7. -/
def c9State : System :=
  { params := {}, arrival_acc_PA1 := 0.5, arrival_acc_PA2 := 0.7 }

/-- Witness for C9: at rates 7 and 13 the accumulators reach 1.2 and 2.0,
so the emission counts are positive for both types and the first two
emitted passengers alternate `PA1`, `PA2`. -/
theorem c9_arrivals_characterization_witness :
    (0 : ℚ) ≤ 7 ∧ (0 : ℚ) ≤ 13 ∧ 0 ≤ c9State.params.dt ∧
    0 ≤ c9State.arrival_acc_PA1 ∧ 0 ≤ c9State.arrival_acc_PA2 ∧
    ((arrivalTypes ⌊c9State.arrival_acc_PA1 + 7 * c9State.params.dt⌋
        ⌊c9State.arrival_acc_PA2 + 13 * c9State.params.dt⌋)[2 * 0]? =
      some PassengerType.PA1 ∧
      (arrivalTypes ⌊c9State.arrival_acc_PA1 + 7 * c9State.params.dt⌋
        ⌊c9State.arrival_acc_PA2 + 13 * c9State.params.dt⌋)[2 * 0 + 1]? =
      some PassengerType.PA2) := by
  have e1 : c9State.arrival_acc_PA1 + 7 * c9State.params.dt = 6 / 5 := by
    norm_num [c9State]
  have e2 : c9State.arrival_acc_PA2 + 13 * c9State.params.dt = 2 := by
    norm_num [c9State]
  have f1 : (0 : ℤ) < ⌊c9State.arrival_acc_PA1 + 7 * c9State.params.dt⌋ := by
    rw [e1]
    have := Int.le_floor.mpr (show ((1 : ℤ) : ℚ) ≤ 6 / 5 by norm_num)
    omega
  have f2 : (0 : ℤ) < ⌊c9State.arrival_acc_PA2 + 13 * c9State.params.dt⌋ := by
    rw [e2]
    have := Int.le_floor.mpr (show ((1 : ℤ) : ℚ) ≤ 2 by norm_num)
    omega
  refine ⟨by norm_num, by norm_num, by norm_num [c9State],
    by norm_num [c9State], by norm_num [c9State], ?_⟩
  exact (c9_arrivals_characterization c9State 7 13 (by norm_num) (by norm_num)
    (by norm_num [c9State]) (by norm_num [c9State])
    (by norm_num [c9State])).2.2.2.2.2 0 (by exact_mod_cast f1)
    (by exact_mod_cast f2)

end Metro

namespace Metro

/-- Sequential positional updates, the functional form of the transfer
loops' passenger mutations. -/
def applyUpds (ps : List Passenger)
    (l : List ((ℕ × Passenger) × (Passenger → Passenger))) : List Passenger :=
  l.foldl (fun acc u => modifyAt acc u.1.1 u.2) ps

theorem applyUpds_append (ps : List Passenger)
    (a b : List ((ℕ × Passenger) × (Passenger → Passenger))) :
    applyUpds ps (a ++ b) = applyUpds (applyUpds ps a) b :=
  List.foldl_append _ _ _ _

theorem applyUpds_slot (j : ℕ) :
    ∀ (l : List ((ℕ × Passenger) × (Passenger → Passenger)))
      (ps : List Passenger), ((l.map fun u => u.1.1).Nodup) →
      ((applyUpds ps l)[j]? = ps[j]? ∧ ∀ u ∈ l, u.1.1 ≠ j) ∨
      ∃ u ∈ l, u.1.1 = j ∧ (applyUpds ps l)[j]? = ps[j]?.map u.2
  | [], ps, _ => Or.inl ⟨rfl, by simp⟩
  | u :: t, ps, hnd => by
    have hnd' : (t.map fun v => v.1.1).Nodup := (List.nodup_cons.mp hnd).2
    have hhead : u.1.1 ∉ t.map fun v => v.1.1 := (List.nodup_cons.mp hnd).1
    have hstep : applyUpds ps (u :: t) = applyUpds (modifyAt ps u.1.1 u.2) t := rfl
    rcases applyUpds_slot j t (modifyAt ps u.1.1 u.2) hnd' with ⟨heq, hall⟩ | ⟨v, hv, hvj, heq⟩
    · by_cases hj : u.1.1 = j
      · refine Or.inr ⟨u, List.mem_cons_self u t, hj, ?_⟩
        rw [hstep, heq, hj, modifyAt_getElem?_eq]
      · refine Or.inl ⟨?_, ?_⟩
        · rw [hstep, heq, modifyAt_getElem?_ne _ _ _ _ hj]
        · intro w hw
          rcases List.mem_cons.mp hw with rfl | hw'
          · exact hj
          · exact hall w hw'
    · have hj : u.1.1 ≠ j := by
        intro h
        exact hhead (by
          rw [h, ← hvj]
          exact List.mem_map_of_mem (fun v => v.1.1) hv)
      refine Or.inr ⟨v, List.mem_cons_of_mem u hv, hvj, ?_⟩
      rw [hstep, heq, modifyAt_getElem?_ne _ _ _ _ hj]

/-- Passenger projection of a transfer loop whose per-entry update applies
a fixed function `g` at the candidate's slot. -/
theorem foldl_modify_passengers {g : Passenger → Passenger}
    {F : System → (ℕ × Passenger) → System}
    (hf : ∀ st e, (F st e).passengers = modifyAt st.passengers e.1 g) :
    ∀ (l : List (ℕ × Passenger)) (st : System),
      (l.foldl F st).passengers = applyUpds st.passengers (l.map fun e => (e, g))
  | [], _ => rfl
  | e :: t, st => by
    rw [List.foldl_cons, List.map_cons, foldl_modify_passengers hf t (F st e)]
    have : applyUpds st.passengers ((e, g) :: t.map fun e => (e, g)) =
        applyUpds (modifyAt st.passengers e.1 g) (t.map fun e => (e, g)) := rfl
    rw [this, hf st e]

end Metro

namespace Metro

theorem step_D_passengers (s : System) (c : Candidates) (K_PW2 : ℚ) :
    ∃ i1 i2 : ℕ, (step_D_SA1_to_PW s c K_PW2).passengers =
      applyUpds s.passengers
        ((c.U_SA1_PW1.take i1).map (fun e => (e, admFnPW1 s.T s.params)) ++
         (c.U_SA1_PW1.drop i1).map (fun e => (e, rejFnSA1 s.params)) ++
         (c.U_SA1_PW2.take i2).map (fun e => (e, admFnPW2 s.T K_PW2 s.params)) ++
         (c.U_SA1_PW2.drop i2).map (fun e => (e, rejFnSA1 s.params))) := by
  apply Exists.intro
  apply Exists.intro
  simp only [step_D_SA1_to_PW]
  rw [foldl_modify_passengers (fun st e => rfl),
    foldl_modify_passengers (fun st e => rfl),
    foldl_modify_passengers (fun st e => rfl),
    foldl_modify_passengers (fun st e => rfl)]
  rw [applyUpds_append, applyUpds_append, applyUpds_append]

theorem step_E_passengers (s : System) (c : Candidates) (K_SA3 : ℚ) :
    ∃ i : ℕ, (step_E_PW_to_SA3 s c K_SA3).passengers =
      applyUpds s.passengers
        (((sortByIndex (c.U_PW1_SA3 ++ c.U_PW2_SA3)).take i).map
            (fun e => (e, admFnSA3 s.T K_SA3 s.params)) ++
         ((sortByIndex (c.U_PW1_SA3 ++ c.U_PW2_SA3)).drop i).map
            (fun e => (e, rejFnSA2 s.params))) := by
  apply Exists.intro
  simp only [step_E_PW_to_SA3]
  rw [foldl_modify_passengers (fun st e => rfl),
    foldl_modify_passengers (fun st e => rfl)]
  rw [applyUpds_append]

theorem step_F_passengers (s : System) (c : Candidates) :
    ∃ i : ℕ, (step_F_SA3_to_Gate s c).passengers =
      applyUpds s.passengers
        ((c.U_SA3_GA.take i).map (fun e => (e, admFnGate s.T)) ++
         (c.U_SA3_GA.drop i).map (fun e => (e, rejFnSA3 s.params))) := by
  apply Exists.intro
  simp only [step_F_SA3_to_Gate]
  rw [foldl_modify_passengers (fun st e => rfl),
    foldl_modify_passengers (fun st e => rfl)]
  rw [applyUpds_append]

end Metro

namespace Metro

/-- Sorting by index is a permutation, so membership is preserved. -/
theorem mem_sortByIndex {l : List (ℕ × Passenger)} {e : ℕ × Passenger} :
    e ∈ sortByIndex l ↔ e ∈ l :=
  (List.perm_insertionSort byIndex l).mem_iff

/-- Sorting by index permutes the slot (first-component) list. -/
theorem slots_sortByIndex_perm (l : List (ℕ × Passenger)) :
    List.Perm ((sortByIndex l).map Prod.fst) (l.map Prod.fst) :=
  (List.perm_insertionSort byIndex l).map Prod.fst

/-- Every entry of a sorted filtered enumeration references the passenger
actually stored at its slot, and satisfies the filter predicate. -/
theorem mem_sorted_filter_enum {l : List Passenger}
    {pred : ℕ × Passenger → Bool} {e : ℕ × Passenger}
    (he : e ∈ sortByIndex (l.enum.filter pred)) :
    l[e.1]? = some e.2 ∧ pred e = true := by
  have h1 : e ∈ l.enum.filter pred := mem_sortByIndex.mp he
  have h2 := List.mem_filter.mp h1
  refine ⟨?_, h2.2⟩
  obtain ⟨i, q⟩ := e
  exact (List.mk_mem_enum_iff_getElem?).mp h2.1

/-- The slots of a sorted filtered enumeration are pairwise distinct. -/
theorem slots_nodup_sorted_filter_enum (l : List Passenger)
    (pred : ℕ × Passenger → Bool) :
    ((sortByIndex (l.enum.filter pred)).map Prod.fst).Nodup := by
  rw [(slots_sortByIndex_perm _).nodup_iff]
  have hsub : List.Sublist ((l.enum.filter pred).map Prod.fst)
      (l.enum.map Prod.fst) :=
    (List.filter_sublist _).map _
  refine hsub.nodup ?_
  rw [List.enum_map_fst]
  exact List.nodup_range _

/-- Candidate lists whose entries reference distinct live passengers of a
common passenger list occupy disjoint slot sets. -/
theorem slots_disjoint (ps : List Passenger) {X Y : List (ℕ × Passenger)}
    (hX : ∀ e ∈ X, ps[e.1]? = some e.2)
    (hY : ∀ e ∈ Y, ps[e.1]? = some e.2)
    (hne : ∀ e ∈ X, ∀ e' ∈ Y, e.2 ≠ e'.2) :
    List.Disjoint (X.map Prod.fst) (Y.map Prod.fst) := by
  intro a haX haY
  obtain ⟨e, he, rfl⟩ := List.mem_map.mp haX
  obtain ⟨e', he', hfst⟩ := List.mem_map.mp haY
  have h1 := hX e he
  have h2 := hY e' he'
  rw [hfst] at h2
  rw [h1] at h2
  exact hne e he e' he' (Option.some.inj h2)

/-- Slot list of a take/drop update pair: exactly the candidate list's
slots. -/
theorem upds_slots (l : List (ℕ × Passenger)) (i : ℕ)
    (f g : Passenger → Passenger) :
    (((l.take i).map (fun e => (e, f)) ++ (l.drop i).map (fun e => (e, g))).map
      (fun u => u.1.1)) = l.map Prod.fst := by
  rw [List.map_append, List.map_map, List.map_map]
  show (l.take i).map Prod.fst ++ (l.drop i).map Prod.fst = l.map Prod.fst
  rw [← List.map_append, List.take_append_drop]

/-- Slot list of two consecutive take/drop update pairs. -/
theorem upds_slots4 (l1 l2 : List (ℕ × Passenger)) (i1 i2 : ℕ)
    (f1 g1 f2 g2 : Passenger → Passenger) :
    ((((l1.take i1).map (fun e => (e, f1)) ++ (l1.drop i1).map (fun e => (e, g1)) ++
       (l2.take i2).map (fun e => (e, f2))) ++ (l2.drop i2).map (fun e => (e, g2))).map
      (fun u => u.1.1)) = l1.map Prod.fst ++ l2.map Prod.fst := by
  rw [List.append_assoc, List.map_append, upds_slots, upds_slots]

/-- No-duplicate assembly for the tick's four slot groups. -/
theorem nodup_concat4 {a b c d : List ℕ} (ha : a.Nodup) (hb : b.Nodup)
    (hc : c.Nodup) (hd : d.Nodup)
    (hab : a.Disjoint b) (hac : a.Disjoint c) (had : a.Disjoint d)
    (hbc : b.Disjoint c) (hbd : b.Disjoint d) (hcd : c.Disjoint d) :
    ((a ++ (b ++ c)) ++ d).Nodup := by
  rw [List.nodup_append, List.nodup_append, List.nodup_append,
    List.disjoint_append_left, List.disjoint_append_left]
  exact ⟨⟨ha, ⟨hb, hc, hbc⟩, by rw [List.disjoint_append_right]; exact ⟨hab, hac⟩⟩,
    hd, ⟨had, hbd, hcd⟩⟩

end Metro

namespace Metro

/-- An entry of the `SA1 → PW1` candidate list references the live checked
passenger waiting in `SA1` at its slot. -/
theorem stepC_mem_U_SA1_PW1 {sA : System} {e : ℕ × Passenger}
    (he : e ∈ (step_C_construct_candidates sA).U_SA1_PW1) :
    sA.passengers[e.1]? = some e.2 ∧ e.2.position = Position.SA1 ∧
      e.2.ptype = PassengerType.PA1 := by
  simp only [step_C_construct_candidates] at he
  obtain ⟨h1, h2⟩ := mem_sorted_filter_enum he
  have h3 := of_decide_eq_true h2
  exact ⟨h1, h3.1, h3.2.1⟩

/-- An entry of the `SA1 → PW2` candidate list references the live
unchecked passenger waiting in `SA1` at its slot. -/
theorem stepC_mem_U_SA1_PW2 {sA : System} {e : ℕ × Passenger}
    (he : e ∈ (step_C_construct_candidates sA).U_SA1_PW2) :
    sA.passengers[e.1]? = some e.2 ∧ e.2.position = Position.SA1 ∧
      e.2.ptype = PassengerType.PA2 := by
  simp only [step_C_construct_candidates] at he
  obtain ⟨h1, h2⟩ := mem_sorted_filter_enum he
  have h3 := of_decide_eq_true h2
  exact ⟨h1, h3.1, h3.2.1⟩

/-- An entry of the `PW1 → SA3` candidate list references the live
passenger in the security lane at its slot. -/
theorem stepC_mem_U_PW1_SA3 {sA : System} {e : ℕ × Passenger}
    (he : e ∈ (step_C_construct_candidates sA).U_PW1_SA3) :
    sA.passengers[e.1]? = some e.2 ∧ e.2.position = Position.PW1 := by
  simp only [step_C_construct_candidates] at he
  obtain ⟨h1, h2⟩ := mem_sorted_filter_enum he
  have h3 := of_decide_eq_true h2
  exact ⟨h1, h3.1⟩

/-- An entry of the `PW2 → SA3` candidate list references the live
passenger in the fast lane at its slot. -/
theorem stepC_mem_U_PW2_SA3 {sA : System} {e : ℕ × Passenger}
    (he : e ∈ (step_C_construct_candidates sA).U_PW2_SA3) :
    sA.passengers[e.1]? = some e.2 ∧ e.2.position = Position.PW2 := by
  simp only [step_C_construct_candidates] at he
  obtain ⟨h1, h2⟩ := mem_sorted_filter_enum he
  have h3 := of_decide_eq_true h2
  exact ⟨h1, h3.1⟩

/-- An entry of the `SA3 → Gate` candidate list references the live
passenger in the pre-gate area at its slot. -/
theorem stepC_mem_U_SA3_GA {sA : System} {e : ℕ × Passenger}
    (he : e ∈ (step_C_construct_candidates sA).U_SA3_GA) :
    sA.passengers[e.1]? = some e.2 ∧ e.2.position = Position.SA3 := by
  simp only [step_C_construct_candidates] at he
  obtain ⟨h1, h2⟩ := mem_sorted_filter_enum he
  have h3 := of_decide_eq_true h2
  exact ⟨h1, h3.1⟩

/-- The `SA1 → PW1` candidate list holds each slot at most once. -/
theorem stepC_nodup_U_SA1_PW1 (sA : System) :
    (((step_C_construct_candidates sA).U_SA1_PW1).map Prod.fst).Nodup := by
  simp only [step_C_construct_candidates]
  exact slots_nodup_sorted_filter_enum _ _

/-- The `SA1 → PW2` candidate list holds each slot at most once. -/
theorem stepC_nodup_U_SA1_PW2 (sA : System) :
    (((step_C_construct_candidates sA).U_SA1_PW2).map Prod.fst).Nodup := by
  simp only [step_C_construct_candidates]
  exact slots_nodup_sorted_filter_enum _ _

/-- The `PW1 → SA3` candidate list holds each slot at most once. -/
theorem stepC_nodup_U_PW1_SA3 (sA : System) :
    (((step_C_construct_candidates sA).U_PW1_SA3).map Prod.fst).Nodup := by
  simp only [step_C_construct_candidates]
  exact slots_nodup_sorted_filter_enum _ _

/-- The `PW2 → SA3` candidate list holds each slot at most once. -/
theorem stepC_nodup_U_PW2_SA3 (sA : System) :
    (((step_C_construct_candidates sA).U_PW2_SA3).map Prod.fst).Nodup := by
  simp only [step_C_construct_candidates]
  exact slots_nodup_sorted_filter_enum _ _

/-- The `SA3 → Gate` candidate list holds each slot at most once. -/
theorem stepC_nodup_U_SA3_GA (sA : System) :
    (((step_C_construct_candidates sA).U_SA3_GA).map Prod.fst).Nodup := by
  simp only [step_C_construct_candidates]
  exact slots_nodup_sorted_filter_enum _ _

end Metro

namespace Metro

/-- Case analysis for one tick's passenger mutations: under the slot
facts established for the candidate lists, a slot is either untouched or
receives exactly one of the seven transfer mutations, and in every case
the basic-time frame conditions hold. -/
theorem applyUpds_tick_cases {ps : List Passenger}
    {E1 D1 D2 F1 : List (ℕ × Passenger)}
    {TE TD TF K2 K1 : ℚ} {prmsE prmsD prmsF : SystemParameters}
    {iE i1 i2 iF j : ℕ} {p p' : Passenger}
    (hE1 : ∀ e ∈ E1, ps[e.1]? = some e.2 ∧
      (e.2.position = Position.PW1 ∨ e.2.position = Position.PW2))
    (hD1 : ∀ e ∈ D1, ps[e.1]? = some e.2 ∧ e.2.position = Position.SA1)
    (hD2 : ∀ e ∈ D2, ps[e.1]? = some e.2 ∧ e.2.position = Position.SA1)
    (hF1 : ∀ e ∈ F1, ps[e.1]? = some e.2 ∧ e.2.position = Position.SA3)
    (hndE : (E1.map Prod.fst).Nodup) (hndD1 : (D1.map Prod.fst).Nodup)
    (hndD2 : (D2.map Prod.fst).Nodup) (hndF : (F1.map Prod.fst).Nodup)
    (hdisD : List.Disjoint (D1.map Prod.fst) (D2.map Prod.fst))
    (hp : ps[j]? = some p)
    (hp' : (applyUpds (applyUpds (applyUpds ps
        ((E1.take iE).map (fun e => (e, admFnSA3 TE K2 prmsE)) ++
         (E1.drop iE).map (fun e => (e, rejFnSA2 prmsE))))
        ((D1.take i1).map (fun e => (e, admFnPW1 TD prmsD)) ++
         (D1.drop i1).map (fun e => (e, rejFnSA1 prmsD)) ++
         (D2.take i2).map (fun e => (e, admFnPW2 TD K1 prmsD)) ++
         (D2.drop i2).map (fun e => (e, rejFnSA1 prmsD))))
        ((F1.take iF).map (fun e => (e, admFnGate TF)) ++
         (F1.drop iF).map (fun e => (e, rejFnSA3 prmsF))))[j]? = some p') :
    p'.t_SA1_basic = p.t_SA1_basic ∧
    (p'.t_PW_basic ≠ p.t_PW_basic →
      p.position = Position.SA1 ∧
      (p'.position = Position.PW1 ∨ p'.position = Position.PW2) ∧
      p'.t_SA2_add = 0) ∧
    (p'.t_SA3_basic ≠ p.t_SA3_basic →
      (p.position = Position.PW1 ∨ p.position = Position.PW2) ∧
      p'.position = Position.SA3 ∧ p'.t_SA3_add = 0) ∧
    (p'.position = p.position →
      p' = { p with
              t_SA1_add := p'.t_SA1_add
              t_SA2_add := p'.t_SA2_add
              t_SA3_add := p'.t_SA3_add }) := by
  have hE1' : ∀ e ∈ E1, ps[e.1]? = some e.2 := fun e he => (hE1 e he).1
  have hD1' : ∀ e ∈ D1, ps[e.1]? = some e.2 := fun e he => (hD1 e he).1
  have hD2' : ∀ e ∈ D2, ps[e.1]? = some e.2 := fun e he => (hD2 e he).1
  have hF1' : ∀ e ∈ F1, ps[e.1]? = some e.2 := fun e he => (hF1 e he).1
  have hdisED1 : List.Disjoint (E1.map Prod.fst) (D1.map Prod.fst) :=
    slots_disjoint ps hE1' hD1' (fun e he e' he' heq => by
      have h1 := (hE1 e he).2
      rw [heq, (hD1 e' he').2] at h1
      simp at h1)
  have hdisED2 : List.Disjoint (E1.map Prod.fst) (D2.map Prod.fst) :=
    slots_disjoint ps hE1' hD2' (fun e he e' he' heq => by
      have h1 := (hE1 e he).2
      rw [heq, (hD2 e' he').2] at h1
      simp at h1)
  have hdisEF : List.Disjoint (E1.map Prod.fst) (F1.map Prod.fst) :=
    slots_disjoint ps hE1' hF1' (fun e he e' he' heq => by
      have h1 := (hE1 e he).2
      rw [heq, (hF1 e' he').2] at h1
      simp at h1)
  have hdisD1F : List.Disjoint (D1.map Prod.fst) (F1.map Prod.fst) :=
    slots_disjoint ps hD1' hF1' (fun e he e' he' heq => by
      have h1 := (hD1 e he).2
      rw [heq, (hF1 e' he').2] at h1
      simp at h1)
  have hdisD2F : List.Disjoint (D2.map Prod.fst) (F1.map Prod.fst) :=
    slots_disjoint ps hD2' hF1' (fun e he e' he' heq => by
      have h1 := (hD2 e he).2
      rw [heq, (hF1 e' he').2] at h1
      simp at h1)
  rw [← applyUpds_append, ← applyUpds_append, ← List.append_assoc] at hp'
  have hnodup : ((((E1.take iE).map (fun e => (e, admFnSA3 TE K2 prmsE)) ++
         (E1.drop iE).map (fun e => (e, rejFnSA2 prmsE)) ++
        ((D1.take i1).map (fun e => (e, admFnPW1 TD prmsD)) ++
         (D1.drop i1).map (fun e => (e, rejFnSA1 prmsD)) ++
         (D2.take i2).map (fun e => (e, admFnPW2 TD K1 prmsD)) ++
         (D2.drop i2).map (fun e => (e, rejFnSA1 prmsD)))) ++
        ((F1.take iF).map (fun e => (e, admFnGate TF)) ++
         (F1.drop iF).map (fun e => (e, rejFnSA3 prmsF)))).map
      fun u => u.1.1).Nodup := by
    rw [List.map_append, List.map_append, upds_slots, upds_slots, upds_slots4]
    exact nodup_concat4 hndE hndD1 hndD2 hndF hdisED1 hdisED2 hdisEF
      hdisD hdisD1F hdisD2F
  rcases applyUpds_slot j _ ps hnodup with ⟨heq, -⟩ | ⟨u, hu, huj, heq⟩
  · rw [heq, hp] at hp'
    obtain rfl := Option.some.inj hp'
    refine ⟨rfl, fun h => absurd rfl h, fun h => absurd rfl h, fun _ => rfl⟩
  · rw [heq, hp] at hp'
    simp only [Option.map_some'] at hp'
    obtain rfl := Option.some.inj hp'
    rcases List.mem_append.mp hu with hu1 | huF
    · rcases List.mem_append.mp hu1 with huE | huD
      · rcases List.mem_append.mp huE with h | h
        · obtain ⟨e, he, rfl⟩ := List.mem_map.mp h
          have hmem := hE1 e (List.mem_of_mem_take he)
          have hep : e.2 = p := by
            have h1 := hmem.1
            rw [huj, hp] at h1
            exact (Option.some.inj h1).symm
          have hpos := hmem.2
          rw [hep] at hpos
          refine ⟨rfl, fun h => absurd rfl h, fun _ => ⟨hpos, rfl, rfl⟩,
            fun h => ?_⟩
          rcases hpos with h2 | h2 <;> rw [h2] at h <;> simp [admFnSA3] at h
        · obtain ⟨e, he, rfl⟩ := List.mem_map.mp h
          exact ⟨rfl, fun h => absurd rfl h, fun h => absurd rfl h, fun _ => rfl⟩
      · rcases List.mem_append.mp huD with h3 | h
        · rcases List.mem_append.mp h3 with h4 | h
          · rcases List.mem_append.mp h4 with h | h
            · obtain ⟨e, he, rfl⟩ := List.mem_map.mp h
              have hmem := hD1 e (List.mem_of_mem_take he)
              have hep : e.2 = p := by
                have h1 := hmem.1
                rw [huj, hp] at h1
                exact (Option.some.inj h1).symm
              have hpos := hmem.2
              rw [hep] at hpos
              refine ⟨rfl, fun _ => ⟨hpos, Or.inl rfl, rfl⟩,
                fun h => absurd rfl h, fun h => ?_⟩
              rw [hpos] at h
              simp [admFnPW1] at h
            · obtain ⟨e, he, rfl⟩ := List.mem_map.mp h
              exact ⟨rfl, fun h => absurd rfl h, fun h => absurd rfl h,
                fun _ => rfl⟩
          · obtain ⟨e, he, rfl⟩ := List.mem_map.mp h
            have hmem := hD2 e (List.mem_of_mem_take he)
            have hep : e.2 = p := by
              have h1 := hmem.1
              rw [huj, hp] at h1
              exact (Option.some.inj h1).symm
            have hpos := hmem.2
            rw [hep] at hpos
            refine ⟨rfl, fun _ => ⟨hpos, Or.inr rfl, rfl⟩,
              fun h => absurd rfl h, fun h => ?_⟩
            rw [hpos] at h
            simp [admFnPW2] at h
        · obtain ⟨e, he, rfl⟩ := List.mem_map.mp h
          exact ⟨rfl, fun h => absurd rfl h, fun h => absurd rfl h,
            fun _ => rfl⟩
    · rcases List.mem_append.mp huF with h | h
      · obtain ⟨e, he, rfl⟩ := List.mem_map.mp h
        have hmem := hF1 e (List.mem_of_mem_take he)
        have hep : e.2 = p := by
          have h1 := hmem.1
          rw [huj, hp] at h1
          exact (Option.some.inj h1).symm
        have hpos := hmem.2
        rw [hep] at hpos
        refine ⟨rfl, fun h => absurd rfl h, fun h => absurd rfl h, fun h => ?_⟩
        rw [hpos] at h
        simp [admFnGate] at h
      · obtain ⟨e, he, rfl⟩ := List.mem_map.mp h
        exact ⟨rfl, fun h => absurd rfl h, fun h => absurd rfl h, fun _ => rfl⟩

end Metro

namespace Metro

/-- A successful tick's passenger list is the one produced by the transfer
phases E, D, F on the post-arrivals state: steps G, the check and the
clock advance never touch it. -/
theorem simulation_step_passengers (s : System) (q_PA1 q_PA2 : ℚ)
    (s' : System) (h : simulation_step s q_PA1 q_PA2 = Except.ok s') :
    s'.passengers =
      (step_F_SA3_to_Gate
        (step_D_SA1_to_PW
          (step_E_PW_to_SA3 (step_A_arrivals s q_PA1 q_PA2)
            (step_C_construct_candidates (step_A_arrivals s q_PA1 q_PA2))
            (step_B_update_densities (step_A_arrivals s q_PA1 q_PA2)).2)
          (step_C_construct_candidates (step_A_arrivals s q_PA1 q_PA2))
          (step_B_update_densities (step_A_arrivals s q_PA1 q_PA2)).1)
        (step_C_construct_candidates (step_A_arrivals s q_PA1 q_PA2))).passengers := by
  rw [simulation_step_eq_check] at h
  split at h
  · obtain rfl := Except.ok.inj h
    rfl
  · exact absurd h (by simp)

end Metro

namespace Metro

/-- C8: basic-time immutability (frame property). For every tick
`simulation_step` completes and every slot `j` that holds passenger `p`
after the arrivals phase (so `t_SA1_basic` was written at creation only)
and passenger `p'` afterwards: `t_SA1_basic` is never rewritten;
`t_PW_basic` changes only when the passenger moves `SA1 → PW1/PW2` (its
lane waiting time restarting at 0); `t_SA3_basic` changes only when the
passenger moves `PW1/PW2 → SA3` (its pre-gate waiting time restarting at
0); and a passenger whose zone does not change keeps every basic-time,
entry-time and exit field — a blocked tick can touch only the
additional-time fields. -/
theorem c8_basic_time_frame (s : System) (q_PA1 q_PA2 : ℚ) (s' : System)
    (hstep : simulation_step s q_PA1 q_PA2 = Except.ok s')
    (j : ℕ) (p p' : Passenger)
    (hp : (step_A_arrivals s q_PA1 q_PA2).passengers[j]? = some p)
    (hp' : s'.passengers[j]? = some p') :
    p'.t_SA1_basic = p.t_SA1_basic ∧
    (p'.t_PW_basic ≠ p.t_PW_basic →
      p.position = Position.SA1 ∧
      (p'.position = Position.PW1 ∨ p'.position = Position.PW2) ∧
      p'.t_SA2_add = 0) ∧
    (p'.t_SA3_basic ≠ p.t_SA3_basic →
      (p.position = Position.PW1 ∨ p.position = Position.PW2) ∧
      p'.position = Position.SA3 ∧ p'.t_SA3_add = 0) ∧
    (p'.position = p.position →
      p' = { p with
              t_SA1_add := p'.t_SA1_add
              t_SA2_add := p'.t_SA2_add
              t_SA3_add := p'.t_SA3_add }) := by
  rw [simulation_step_passengers s q_PA1 q_PA2 s' hstep] at hp'
  obtain ⟨iE, hE⟩ := step_E_passengers (step_A_arrivals s q_PA1 q_PA2)
    (step_C_construct_candidates (step_A_arrivals s q_PA1 q_PA2))
    (step_B_update_densities (step_A_arrivals s q_PA1 q_PA2)).2
  obtain ⟨i1, i2, hD⟩ := step_D_passengers
    (step_E_PW_to_SA3 (step_A_arrivals s q_PA1 q_PA2)
      (step_C_construct_candidates (step_A_arrivals s q_PA1 q_PA2))
      (step_B_update_densities (step_A_arrivals s q_PA1 q_PA2)).2)
    (step_C_construct_candidates (step_A_arrivals s q_PA1 q_PA2))
    (step_B_update_densities (step_A_arrivals s q_PA1 q_PA2)).1
  obtain ⟨iF, hF⟩ := step_F_passengers
    (step_D_SA1_to_PW
      (step_E_PW_to_SA3 (step_A_arrivals s q_PA1 q_PA2)
        (step_C_construct_candidates (step_A_arrivals s q_PA1 q_PA2))
        (step_B_update_densities (step_A_arrivals s q_PA1 q_PA2)).2)
      (step_C_construct_candidates (step_A_arrivals s q_PA1 q_PA2))
      (step_B_update_densities (step_A_arrivals s q_PA1 q_PA2)).1)
    (step_C_construct_candidates (step_A_arrivals s q_PA1 q_PA2))
  rw [hF, hD, hE] at hp'
  refine applyUpds_tick_cases ?_ ?_ ?_ ?_ ?_ ?_ ?_ ?_ ?_ hp hp'
  · intro e he
    rcases List.mem_append.mp (mem_sortByIndex.mp he) with h | h
    · obtain ⟨h1, h2⟩ := stepC_mem_U_PW1_SA3 h
      exact ⟨h1, Or.inl h2⟩
    · obtain ⟨h1, h2⟩ := stepC_mem_U_PW2_SA3 h
      exact ⟨h1, Or.inr h2⟩
  · intro e he
    obtain ⟨h1, h2, -⟩ := stepC_mem_U_SA1_PW1 he
    exact ⟨h1, h2⟩
  · intro e he
    obtain ⟨h1, h2, -⟩ := stepC_mem_U_SA1_PW2 he
    exact ⟨h1, h2⟩
  · intro e he
    exact stepC_mem_U_SA3_GA he
  · rw [(slots_sortByIndex_perm _).nodup_iff, List.map_append,
      List.nodup_append]
    refine ⟨stepC_nodup_U_PW1_SA3 _, stepC_nodup_U_PW2_SA3 _, ?_⟩
    exact slots_disjoint (step_A_arrivals s q_PA1 q_PA2).passengers
      (fun e he => (stepC_mem_U_PW1_SA3 he).1)
      (fun e he => (stepC_mem_U_PW2_SA3 he).1)
      (fun e he e' he' heq => by
        have h1 := (stepC_mem_U_PW1_SA3 he).2
        rw [heq, (stepC_mem_U_PW2_SA3 he').2] at h1
        simp at h1)
  · exact stepC_nodup_U_SA1_PW1 _
  · exact stepC_nodup_U_SA1_PW2 _
  · exact stepC_nodup_U_SA3_GA _
  · exact slots_disjoint (step_A_arrivals s q_PA1 q_PA2).passengers
      (fun e he => (stepC_mem_U_SA1_PW1 he).1)
      (fun e he => (stepC_mem_U_SA1_PW2 he).1)
      (fun e he e' he' heq => by
        have h1 := (stepC_mem_U_SA1_PW1 he).2.2
        rw [heq, (stepC_mem_U_SA1_PW2 he').2.2] at h1
        simp at h1)

end Metro

namespace Metro

theorem c8_basic_time_frame_witness :
    pd1'.t_SA1_basic = pd1.t_SA1_basic ∧
    (pd1'.t_PW_basic ≠ pd1.t_PW_basic →
      pd1.position = Position.SA1 ∧
      (pd1'.position = Position.PW1 ∨ pd1'.position = Position.PW2) ∧
      pd1'.t_SA2_add = 0) ∧
    (pd1'.t_SA3_basic ≠ pd1.t_SA3_basic →
      (pd1.position = Position.PW1 ∨ pd1.position = Position.PW2) ∧
      pd1'.position = Position.SA3 ∧ pd1'.t_SA3_add = 0) ∧
    (pd1'.position = pd1.position →
      pd1' = { pd1 with
                t_SA1_add := pd1'.t_SA1_add
                t_SA2_add := pd1'.t_SA2_add
                t_SA3_add := pd1'.t_SA3_add }) :=
  c8_basic_time_frame drainState 0 0 dFinal drainState_eval 1 pd1 pd1'
    (by simp [step_A_arrivals, arrivalTypes, pyInt, drainState]) rfl

end Metro
